import Mathlib

/-! TaskbarHider: a shallow embedding of `final_solution_cpp.cpp`.

The program hides the Explorer taskbar, reveals it for ten seconds on a Win
key press, and restores the shell on Alt+backtick.  The embedding passes an
explicit `World` (program globals, the part of the operating system the
program reads and writes, and a log of the calls it makes) through every
function of the source.  Loops over vectors are folds over lists, the main
loop consumes one poll sample per iteration, and 64-bit unsigned arithmetic
is `Nat` arithmetic modulo `2^64`.
-/

namespace TaskbarHider

/-! ## Data model -/

/-- Window handles.  A null handle is `none` where the source tests for it. -/
abbrev HWND := Nat

/-- A `std::wstring`: the list of its `wchar_t` code units. -/
abbrev wstring := List Nat

/-- The Win32 `RECT`. -/
structure RECT where
  left : Int
  top : Int
  right : Int
  bottom : Int
deriving DecidableEq, Repr

/-- A taskbar surface as the program can observe and change it:
visibility flag, position and size. -/
structure Surface where
  visible : Bool
  x : Int
  y : Int
  width : Int
  height : Int
deriving DecidableEq, Repr

/-- The two window classes searched by `enumerate_taskbars`. -/
inductive WndClass where
  | Shell_TrayWnd
  | Shell_SecondaryTrayWnd
deriving DecidableEq, Repr

/-- The functions of the program whose entry is recorded in the call log. -/
inductive Fn where
  | set_fullscreen_work_area
  | restore_work_area
  | hide_system_taskbars (reactivate : Bool)
  | show_system_taskbars
  | close_start_menu
deriving DecidableEq, Repr

/-- One entry of the call log: an operating-system call with its arguments,
or the entry into one of the functions of `Fn`. -/
inductive Call where
  | ShowWindow (hwnd : HWND) (nCmdShow : Nat)
  | SetWindowPos (hwnd : HWND) (x y cx cy : Int) (uFlags : Nat)
  | Sleep (ms : Nat)
  | keybd_event (vk : Nat) (dwFlags : Nat)
  | SPI_GETWORKAREA
  | SPI_SETWORKAREA (r : RECT) (fWinIni : Nat)
  | broadcast_workarea_change
  | SHAppBarMessage (dwMessage : Nat) (hWnd : Option HWND) (lParam : Nat)
  | enter (f : Fn)
deriving DecidableEq, Repr

/-! Constants of `windows.h` and of lines 28-36 of the source. -/

def SW_HIDE : Nat := 0
def SW_SHOWNOACTIVATE : Nat := 4
def SWP_NOSIZE : Nat := 0x0001
def SWP_NOMOVE : Nat := 0x0002
def SWP_NOZORDER : Nat := 0x0004
def SWP_NOACTIVATE : Nat := 0x0010
def SWP_FRAMECHANGED : Nat := 0x0020
def SPIF_UPDATEINIFILE : Nat := 0x0001
def SPIF_SENDCHANGE : Nat := 0x0002
def VK_ESCAPE : Nat := 0x1B
def KEYEVENTF_KEYUP : Nat := 0x0002
def ABM_SETSTATE : Nat := 0x0000000A
def ABS_AUTOHIDE : Nat := 0x0000001
def ABS_ALWAYSONTOP : Nat := 0x0000002

/-- The part of the operating system the program queries and changes. -/
structure OS where
  /-- The surface behind each handle. -/
  windows : HWND → Surface
  /-- The usable desktop rectangle (`SPI_GETWORKAREA` / `SPI_SETWORKAREA`). -/
  workArea : RECT
  /-- Value of `GetSystemMetrics(SM_CXSCREEN)`. -/
  cxScreen : Int
  /-- Value of `GetSystemMetrics(SM_CYSCREEN)`. -/
  cyScreen : Int
  /-- The appbar state last set through `ABM_SETSTATE`. -/
  appbarState : Nat
  /-- Whether `SystemParametersInfoW(SPI_GETWORKAREA, ..)` succeeds. -/
  spiGetOk : Bool
  /-- Whether `SystemParametersInfoW(SPI_SETWORKAREA, ..)` succeeds. -/
  spiSetOk : Bool
  /-- The `szExeFile` names of the Toolhelp process snapshot, `none` when
  `CreateToolhelp32Snapshot` returns `INVALID_HANDLE_VALUE`. -/
  processes : Option (List wstring)
  /-- The top-level windows of a class in the order `FindWindowExW`
  enumerates them; `FindWindowW` returns the first one. -/
  classWindows : WndClass → List HWND
  /-- The image path of the process owning a window, `none` when the process
  id, `OpenProcess` or `QueryFullProcessImageNameW` fails. -/
  processPath : HWND → Option wstring

/-- The global variables of lines 39-49. -/
structure Globals where
  g_explorer_taskbars : List HWND
  g_third_party_taskbars : List HWND
  g_has_taskbar_managers : Bool
  g_exit_flag : Bool
  g_desired_hidden : Bool
  g_panel_temp_visible : Bool
  g_show_deadline_ms : Nat
  g_original_work_area : RECT
  g_has_original_work_area : Bool

/-- Program globals, operating system, and the log of calls made so far. -/
structure World where
  g : Globals
  os : OS
  trace : List Call

/-- The globals as their static initialisers leave them (lines 39-49). -/
def Globals.static_init : Globals :=
  { g_explorer_taskbars := []
    g_third_party_taskbars := []
    g_has_taskbar_managers := false
    g_exit_flag := false
    g_desired_hidden := true
    g_panel_temp_visible := false
    g_show_deadline_ms := 0
    g_original_work_area := ⟨0, 0, 0, 0⟩
    g_has_original_work_area := false }

/-- The world at process start: static initialisers, empty call log. -/
def World.at_launch (os : OS) : World :=
  { g := Globals.static_init, os := os, trace := [] }

/-- The calls logged between two worlds of one execution. -/
def new_calls (before after : World) : List Call :=
  after.trace.drop before.trace.length

/-! ## Operating-system calls -/

/-- A write to the global variables. -/
def store (f : Globals → Globals) (w : World) : World :=
  { w with g := f w.g }

/-- Append one entry to the call log. -/
def log (c : Call) (w : World) : World :=
  { w with trace := w.trace ++ [c] }

/-- Effect of `ShowWindow` on one surface: `SW_HIDE` clears the visibility
flag, every other command used by the program sets it. -/
def Surface.show (nCmdShow : Nat) (s : Surface) : Surface :=
  { s with visible := nCmdShow != SW_HIDE }

/-- Effect of `SetWindowPos` on one surface: the position is written unless
`SWP_NOMOVE` is given, the size unless `SWP_NOSIZE` is given. -/
def Surface.setPos (x y cx cy : Int) (uFlags : Nat) (s : Surface) : Surface :=
  let s := if uFlags &&& SWP_NOMOVE = 0 then { s with x := x, y := y } else s
  if uFlags &&& SWP_NOSIZE = 0 then { s with width := cx, height := cy } else s

def ShowWindow (hwnd : HWND) (nCmdShow : Nat) (w : World) : World :=
  log (Call.ShowWindow hwnd nCmdShow)
    { w with os := { w.os with
        windows := Function.update w.os.windows hwnd ((w.os.windows hwnd).show nCmdShow) } }

def SetWindowPos (hwnd : HWND) (x y cx cy : Int) (uFlags : Nat) (w : World) : World :=
  log (Call.SetWindowPos hwnd x y cx cy uFlags)
    { w with os := { w.os with
        windows := Function.update w.os.windows hwnd
          ((w.os.windows hwnd).setPos x y cx cy uFlags) } }

def IsWindowVisible (hwnd : HWND) (w : World) : Bool :=
  (w.os.windows hwnd).visible

def Sleep (ms : Nat) (w : World) : World :=
  log (Call.Sleep ms) w

def keybd_event (vk : Nat) (dwFlags : Nat) (w : World) : World :=
  log (Call.keybd_event vk dwFlags) w

/-- The call `FindWindowW(cls, nullptr)`. -/
def FindWindowW (cls : WndClass) (os : OS) : Option HWND :=
  (os.classWindows cls).head?

/-! ## Utils (lines 55-66) -/

/-- The function `towlower` in the default C locale (the program never calls
`setlocale`): the letters A-Z map to a-z, every other code is unchanged. -/
def towlower (c : Nat) : Nat :=
  if 65 ≤ c ∧ c ≤ 90 then c + 32 else c

def to_lower (s : wstring) : wstring :=
  s.map towlower

/-- Three-way lexicographic comparison of two code-unit sequences, the
result of `std::wstring::compare`: negative, zero or positive. -/
def compare3 : wstring → wstring → Int
  | [], [] => 0
  | [], _ :: _ => -1
  | _ :: _, [] => 1
  | x :: xs, y :: ys => if x < y then -1 else if y < x then 1 else compare3 xs ys

/-- The call `a.compare(pos, len, b)`. -/
def wstring_compare (a : wstring) (pos len : Nat) (b : wstring) : Int :=
  compare3 ((a.drop pos).take len) b

def ends_with_icase (s suf : wstring) : Bool :=
  if s.length < suf.length then false
  else
    let a := to_lower s
    let b := to_lower suf
    wstring_compare a (a.length - b.length) b.length b == 0

/-! ## Target discovery (lines 69-140) -/

/-- The catalog `managers[]` of line 73: yasb.exe, taskbarx.exe,
explorerpatcher.exe, startallback.exe, translucent-tb.exe, rainmeter.exe,
displayfusion.exe. -/
def managers : List wstring :=
  [ [121, 97, 115, 98, 46, 101, 120, 101],
    [116, 97, 115, 107, 98, 97, 114, 120, 46, 101, 120, 101],
    [101, 120, 112, 108, 111, 114, 101, 114, 112, 97, 116, 99, 104, 101, 114, 46, 101, 120, 101],
    [115, 116, 97, 114, 116, 97, 108, 108, 98, 97, 99, 107, 46, 101, 120, 101],
    [116, 114, 97, 110, 115, 108, 117, 99, 101, 110, 116, 45, 116, 98, 46, 101, 120, 101],
    [114, 97, 105, 110, 109, 101, 116, 101, 114, 46, 101, 120, 101],
    [100, 105, 115, 112, 108, 97, 121, 102, 117, 115, 105, 111, 110, 46, 101, 120, 101] ]

def detect_taskbar_managers (os : OS) : Bool :=
  match os.processes with
  | none => false
  | some procs =>
    procs.any (fun szExeFile =>
      let exe := to_lower szExeFile
      managers.any (fun m => exe == to_lower m))

def get_window_process_path (hwnd : HWND) (os : OS) : wstring :=
  match os.processPath hwnd with
  | none => []
  | some path => path

/-- The literal `L"\\explorer.exe"`. -/
def backslash_explorer_exe : wstring :=
  [92, 101, 120, 112, 108, 111, 114, 101, 114, 46, 101, 120, 101]

/-- The literal `L"/explorer.exe"`. -/
def slash_explorer_exe : wstring :=
  [47, 101, 120, 112, 108, 111, 114, 101, 114, 46, 101, 120, 101]

/-- The classification test of lines 117-118 and 133-134, applied to the
process path of a window. -/
def is_explorer_path (path : wstring) : Bool :=
  let p := to_lower path
  ends_with_icase p backslash_explorer_exe || ends_with_icase p slash_explorer_exe

/-- Lines 117-121 and 133-137: push the handle on the list its path selects. -/
def classify_push (h : HWND) (w : World) : World :=
  if is_explorer_path (get_window_process_path h w.os) then
    store (fun g => { g with g_explorer_taskbars := g.g_explorer_taskbars ++ [h] }) w
  else
    store (fun g => { g with g_third_party_taskbars := g.g_third_party_taskbars ++ [h] }) w

def enumerate_taskbars (w : World) : World :=
  let w := store (fun g => { g with g_explorer_taskbars := [], g_third_party_taskbars := [] }) w
  [WndClass.Shell_TrayWnd, WndClass.Shell_SecondaryTrayWnd].foldl
    (fun w cls =>
      let w :=
        if cls = WndClass.Shell_TrayWnd then
          match FindWindowW cls w.os with
          | some primary => classify_push primary w
          | none => w
        else w
      (w.os.classWindows cls).foldl
        (fun w h =>
          if h ∈ w.g.g_explorer_taskbars ∨ h ∈ w.g.g_third_party_taskbars then w
          else classify_push h w)
        w)
    w

/-! ## Work area (lines 143-167) -/

def save_work_area (w : World) : World :=
  let w := log Call.SPI_GETWORKAREA w
  if w.os.spiGetOk then
    store (fun g => { g with g_original_work_area := w.os.workArea,
                             g_has_original_work_area := true }) w
  else w

def broadcast_workarea_change (w : World) : World :=
  log Call.broadcast_workarea_change w

/-- The call `SystemParametersInfoW(SPI_SETWORKAREA, 0, &r, fWinIni)`: the
new world and whether the call succeeded. -/
def SystemParametersInfoW_SETWORKAREA (r : RECT) (fWinIni : Nat) (w : World) : World × Bool :=
  let w := log (Call.SPI_SETWORKAREA r fWinIni) w
  if w.os.spiSetOk then ({ w with os := { w.os with workArea := r } }, true)
  else (w, false)

def set_fullscreen_work_area (w : World) : World :=
  let w := log (Call.enter Fn.set_fullscreen_work_area) w
  let full : RECT := ⟨0, 0, w.os.cxScreen, w.os.cyScreen⟩
  let r := SystemParametersInfoW_SETWORKAREA full (SPIF_UPDATEINIFILE ||| SPIF_SENDCHANGE) w
  if r.2 then broadcast_workarea_change r.1 else r.1

def restore_work_area (w : World) : World :=
  let w := log (Call.enter Fn.restore_work_area) w
  if !w.g.g_has_original_work_area then w
  else
    let r := SystemParametersInfoW_SETWORKAREA w.g.g_original_work_area
      (SPIF_UPDATEINIFILE ||| SPIF_SENDCHANGE) w
    if r.2 then broadcast_workarea_change r.1 else r.1

/-! ## Taskbar control (lines 170-216) -/

def force_hide_hwnd (hwnd : HWND) (w : World) : World :=
  let w := ShowWindow hwnd SW_HIDE w
  SetWindowPos hwnd (-10000) (-10000) 1 1
    (SWP_NOZORDER ||| SWP_NOACTIVATE ||| SWP_FRAMECHANGED) w

/-- What `force_hide_hwnd` does to the surface behind its handle. -/
def force_hide_surface (s : Surface) : Surface :=
  (s.show SW_HIDE).setPos (-10000) (-10000) 1 1
    (SWP_NOZORDER ||| SWP_NOACTIVATE ||| SWP_FRAMECHANGED)

/-- One iteration of the inner loop of lines 179-184. -/
def reactivate_pulse (hwnd : HWND) (w : World) : World :=
  let w := ShowWindow hwnd SW_SHOWNOACTIVATE w
  let w := Sleep 50 w
  let w := ShowWindow hwnd SW_HIDE w
  Sleep 50 w

def hide_system_taskbars (reactivate : Bool) (w : World) : World :=
  let w := log (Call.enter (Fn.hide_system_taskbars reactivate)) w
  w.g.g_explorer_taskbars.foldl
    (fun w hwnd =>
      let w :=
        if reactivate then
          (List.range 2).foldl (fun w _ => reactivate_pulse hwnd w) w
        else
          ShowWindow hwnd SW_HIDE w
      force_hide_hwnd hwnd w)
    w

def show_system_taskbars (w : World) : World :=
  let w := log (Call.enter Fn.show_system_taskbars) w
  w.g.g_explorer_taskbars.foldl (fun w hwnd => ShowWindow hwnd SW_SHOWNOACTIVATE w) w

def close_start_menu (w : World) : World :=
  let w := log (Call.enter Fn.close_start_menu) w
  let w := keybd_event VK_ESCAPE 0 w
  let w := Sleep 20 w
  keybd_event VK_ESCAPE KEYEVENTF_KEYUP w

def get_primary_taskbar_hwnd (w : World) : Option HWND :=
  match w.g.g_explorer_taskbars with
  | h :: _ => some h
  | [] => FindWindowW WndClass.Shell_TrayWnd w.os

def set_taskbar_autohide (enable : Bool) (w : World) : World :=
  let hWnd := get_primary_taskbar_hwnd w
  let lParam := if enable then ABS_AUTOHIDE else ABS_ALWAYSONTOP
  log (Call.SHAppBarMessage ABM_SETSTATE hWnd lParam)
    { w with os := { w.os with appbarState := lParam } }

/-! ## Enforcement thread (lines 219-230) -/

/-- One iteration body of the loop of `enforcement_worker`. -/
def enforcement_tick (w : World) : World :=
  let w :=
    if w.g.g_desired_hidden && !w.g.g_panel_temp_visible then
      w.g.g_explorer_taskbars.foldl
        (fun w hwnd => if IsWindowVisible hwnd w then force_hide_hwnd hwnd w else w)
        w
    else w
  Sleep 100 w

/-- The loop of `enforcement_worker`, run for at most `fuel` iterations. -/
def enforcement_worker : Nat → World → World
  | 0, w => w
  | fuel + 1, w =>
    if !w.g.g_exit_flag then enforcement_worker fuel (enforcement_tick w) else w

/-! ## Entry point (lines 233-317) -/

/-- What one iteration of the main loop reads from the outside: the tick
count and the four key states. -/
structure Sample where
  /-- Value of `now_ms()`. -/
  t : Nat
  /-- Value of `key_down(VK_MENU)`. -/
  alt_down : Bool
  /-- Value of `key_down(VK_OEM_3)`. -/
  backtick_down : Bool
  /-- Value of `key_down(VK_LWIN)`. -/
  lwin_down : Bool
  /-- Value of `key_down(VK_RWIN)`. -/
  rwin_down : Bool
deriving DecidableEq, Repr

/-- The world together with the two locals of `wWinMain` that live across
iterations of the main loop. -/
structure MainLoop where
  w : World
  win_was_down : Bool
  alt_combo_latched : Bool

/-- How one iteration of the main loop ends: at the `break` of line 262, with
the state it was entered in, or at the end of the body. -/
inductive Step where
  | brk (s : MainLoop)
  | next (s : MainLoop)

/-- Lines 274-276: restore the work area when a snapshot exists and the
safety gate is open. -/
def restore_if_safe (w : World) : World :=
  if w.g.g_has_original_work_area &&
      (!w.g.g_has_taskbar_managers && w.g.g_third_party_taskbars.isEmpty) then
    restore_work_area w
  else w

/-- Lines 245-247, 285-287 and 299-301: expand the work area when the safety
gate is open. -/
def expand_if_safe (w : World) : World :=
  if !w.g.g_has_taskbar_managers && w.g.g_third_party_taskbars.isEmpty then
    set_fullscreen_work_area w
  else w

/-- Lines 271-278: the reveal-start branch. -/
def reveal_start (t : Nat) (w : World) : World :=
  let w := store (fun g => { g with g_panel_temp_visible := true }) w
  let w := store (fun g => { g with g_desired_hidden := false }) w
  let w := show_system_taskbars w
  let w := restore_if_safe w
  let w := store (fun g => { g with g_show_deadline_ms := (t + 10000) % 2 ^ 64 }) w
  Sleep 120 w

/-- Lines 281-288: the early dismissal on a second press. -/
def repress_dismiss (w : World) : World :=
  let w := close_start_menu w
  let w := store (fun g => { g with g_desired_hidden := true }) w
  let w := store (fun g => { g with g_panel_temp_visible := false }) w
  let w := hide_system_taskbars false w
  let w := expand_if_safe w
  Sleep 60 w

/-- Lines 295-301: the dismissal by timeout. -/
def timeout_dismiss (w : World) : World :=
  let w := close_start_menu w
  let w := store (fun g => { g with g_desired_hidden := true }) w
  let w := store (fun g => { g with g_panel_temp_visible := false }) w
  let w := hide_system_taskbars true w
  expand_if_safe w

/-- Lines 256-304: one iteration of the main loop. -/
def loop_body (s : MainLoop) (p : Sample) : Step :=
  let t := p.t
  let alt_down := p.alt_down
  let backtick_down := p.backtick_down
  if alt_down && backtick_down && !s.alt_combo_latched then Step.brk s
  else
    let alt_combo_latched := alt_down && backtick_down
    let win_down := p.lwin_down || p.rwin_down
    let w := s.w
    let w :=
      if win_down && !s.win_was_down then
        if !w.g.g_panel_temp_visible then reveal_start t w
        else repress_dismiss w
      else w
    let win_was_down := win_down
    let w :=
      if w.g.g_panel_temp_visible && decide (t ≥ w.g.g_show_deadline_ms) then
        timeout_dismiss w
      else w
    let w := Sleep 20 w
    Step.next { w := w, win_was_down := win_was_down, alt_combo_latched := alt_combo_latched }

/-- Lines 234-236: target discovery and the snapshot of the work area. -/
def discover (os : OS) : World :=
  let w := World.at_launch os
  let w := store (fun g => { g with g_has_taskbar_managers := detect_taskbar_managers w.os }) w
  let w := enumerate_taskbars w
  save_work_area w

/-- Lines 234-252: everything `wWinMain` does before the main loop. -/
def startup (os : OS) : MainLoop :=
  let w := discover os
  let w := store (fun g => { g with g_desired_hidden := true }) w
  let w := store (fun g => { g with g_panel_temp_visible := false }) w
  let w := store (fun g => { g with g_show_deadline_ms := 0 }) w
  let w := set_taskbar_autohide true w
  let w := hide_system_taskbars true w
  let w := expand_if_safe w
  { w := w, win_was_down := false, alt_combo_latched := false }

/-- Lines 255-305: the main loop on a finite sequence of poll samples.  The
result is the state the loop stopped in and whether the loop was left (by
its condition or by `break`); `false` means the samples ran out while the
loop was still running. -/
def main_loop : MainLoop → List Sample → MainLoop × Bool
  | s, [] => (s, false)
  | s, p :: ps =>
    if !s.w.g.g_exit_flag then
      match loop_body s p with
      | Step.brk s1 => (s1, true)
      | Step.next s1 => main_loop s1 ps
    else (s, true)

/-- Lines 308-316: the shutdown sequence and the exit code.  The `join` of
line 309 is the worker finding the exit flag set at its loop condition. -/
def shutdown (w : World) : World × Int :=
  let w := store (fun g => { g with g_exit_flag := true }) w
  let w := enforcement_worker 1 w
  let w := store (fun g => { g with g_desired_hidden := false }) w
  let w := show_system_taskbars w
  let w := restore_work_area w
  let w := set_taskbar_autohide false w
  (w, 0)

/-- The whole of `wWinMain` on a finite sequence of poll samples: the final
world and the exit code, or `none` while the main loop is still running. -/
def wWinMain (os : OS) (samples : List Sample) : Option (World × Int) :=
  let r := main_loop (startup os) samples
  if r.2 then some (shutdown r.1.w) else none

/-! ## Specification-side notions -/

/-- The two path separators, backslash and slash. -/
def is_separator (c : Nat) : Bool :=
  c == 92 || c == 47

/-- The final path segment as the specification words it: the text after the
last separator, or the whole path when it contains none. -/
def final_segment (p : wstring) : wstring :=
  (p.reverse.takeWhile (fun c => !is_separator c)).reverse

/-- The text `explorer.exe`. -/
def explorer_exe : wstring :=
  [101, 120, 112, 108, 111, 114, 101, 114, 46, 101, 120, 101]

/-- The specification-side test: the final segment equals `explorer.exe`
ignoring case. -/
def final_segment_is_explorer (p : wstring) : Bool :=
  to_lower (final_segment p) == to_lower explorer_exe

/-- The calls of one show-then-hide pulse on a surface. -/
def show_then_hide_pulse (h : HWND) : List Call :=
  [Call.ShowWindow h SW_SHOWNOACTIVATE, Call.Sleep 50, Call.ShowWindow h SW_HIDE, Call.Sleep 50]

/-- The calls of one force-hide on a surface. -/
def force_hide_calls (h : HWND) : List Call :=
  [Call.ShowWindow h SW_HIDE,
   Call.SetWindowPos h (-10000) (-10000) 1 1 (SWP_NOZORDER ||| SWP_NOACTIVATE ||| SWP_FRAMECHANGED)]

/-- The safety gate of the specification: no third-party manager runs and
the foreign-surface set is empty. -/
def safe_gate (g : Globals) : Bool :=
  !g.g_has_taskbar_managers && g.g_third_party_taskbars.isEmpty

/-- The functions entered, in order, within a stretch of the call log. -/
def entered (calls : List Call) : List Fn :=
  calls.filterMap (fun c => match c with
    | Call.enter f => some f
    | _ => none)

/-- Whether a stretch of the call log invokes a work-area expansion
(`set_fullscreen_work_area`) or restoration (`restore_work_area`). -/
def work_area_invoked (calls : List Call) : Prop :=
  Fn.set_fullscreen_work_area ∈ entered calls ∨ Fn.restore_work_area ∈ entered calls

instance (calls : List Call) : Decidable (work_area_invoked calls) := by
  unfold work_area_invoked
  infer_instance

/-- The three transitions of the coordinator. -/
inductive Transition where
  | reveal_start
  | repress_dismiss
  | timeout_dismiss
deriving DecidableEq, Repr

/-- Inside the main loop each transition enters one function no other
branch enters: the reveal-start `show_system_taskbars`, the dismissal on a
second press `hide_system_taskbars(false)`, the dismissal by timeout
`hide_system_taskbars(true)`. -/
def transition_of : Fn → Option Transition
  | Fn.show_system_taskbars => some Transition.reveal_start
  | Fn.hide_system_taskbars false => some Transition.repress_dismiss
  | Fn.hide_system_taskbars true => some Transition.timeout_dismiss
  | _ => none

/-- The transitions performed within a stretch of the call log of the main
loop. -/
def transitions (calls : List Call) : List Transition :=
  (entered calls).filterMap transition_of

/-- The exit gesture as line 261 tests it. -/
def exit_gesture (s : MainLoop) (p : Sample) : Bool :=
  p.alt_down && p.backtick_down && !s.alt_combo_latched

/-- The reveal key as line 267 samples it. -/
def win_down (p : Sample) : Bool :=
  p.lwin_down || p.rwin_down

/-- The rising edge of the reveal key as line 268 tests it. -/
def rising_edge (s : MainLoop) (p : Sample) : Bool :=
  win_down p && !s.win_was_down

/-- The state a step ends in. -/
def Step.state : Step → MainLoop
  | Step.brk s => s
  | Step.next s => s

/-- The calls made by one iteration of the main loop. -/
def tick_calls (s : MainLoop) (p : Sample) : List Call :=
  new_calls s.w (loop_body s p).state.w

/-- The transitions of each iteration of the main loop, one list per
iteration that ran to the end of the body. -/
def ticks_transitions : MainLoop → List Sample → List (List Transition)
  | _, [] => []
  | s, p :: ps =>
    if !s.w.g.g_exit_flag then
      match loop_body s p with
      | Step.brk _ => []
      | Step.next s1 => transitions (tick_calls s p) :: ticks_transitions s1 ps
    else []

/-- No iteration of the run sees a rising edge of the reveal key or an exit
gesture. -/
def quiet : MainLoop → List Sample → Bool
  | _, [] => true
  | s, p :: ps => !rising_edge s p && !exit_gesture s p && quiet (loop_body s p).state ps

/-- Every iteration of the run samples the reveal key down and sees no exit
gesture. -/
def held : MainLoop → List Sample → Bool
  | _, [] => true
  | s, p :: ps => win_down p && !exit_gesture s p && held (loop_body s p).state ps

/-- The states the main loop can be in at the top of an iteration: the state
`startup` leaves, closed under iterations of the loop body and under any
change of the operating system between the calls of the program (by the
shell, by another program, or by the enforcement thread, none of which
writes a global variable of the program). -/
inductive Reachable (os0 : OS) : MainLoop → Prop where
  | start : Reachable os0 (startup os0)
  | tick (s s1 : MainLoop) (p : Sample) :
      Reachable os0 s → loop_body s p = Step.next s1 → Reachable os0 s1
  | os_change (s : MainLoop) (os1 : OS) :
      Reachable os0 s → Reachable os0 { s with w := { s.w with os := os1 } }

/-- The world with the two taskbar lists replaced. -/
def World.with_lists (w : World) (X Y : List HWND) : World :=
  store (fun g => { g with g_explorer_taskbars := X, g_third_party_taskbars := Y }) w

/-- The state in which an iteration that reaches the end of the body leaves
the loop: the final `Sleep(20)` and the two latches of lines 264 and 291. -/
def end_of_body (w : World) (p : Sample) : MainLoop :=
  { w := Sleep 20 w, win_was_down := win_down p,
    alt_combo_latched := p.alt_down && p.backtick_down }

/-- The state invariant of the specification: a temporarily visible panel
is never desired hidden. -/
def visible_implies_not_hidden (g : Globals) : Prop :=
  g.g_panel_temp_visible = true → g.g_desired_hidden = false

/-! ## Concrete inputs -/

/-- The path `C:\Windows\explorer.exe`. -/
def windows_explorer_path : wstring :=
  [67, 58, 92, 87, 105, 110, 100, 111, 119, 115, 92, 101, 120, 112, 108, 111, 114, 101, 114,
   46, 101, 120, 101]

/-- A desktop of 1920 by 1080 with a 40 pixel taskbar (handle 1) owned by
Explorer, no secondary taskbar, no third-party manager, and a system that
accepts every call. -/
def plain_desktop : OS :=
  { windows := fun _ => ⟨true, 0, 1040, 1920, 40⟩
    workArea := ⟨0, 0, 1920, 1040⟩
    cxScreen := 1920
    cyScreen := 1080
    appbarState := ABS_ALWAYSONTOP
    spiGetOk := true
    spiSetOk := true
    processes := some [explorer_exe]
    classWindows := fun cls => match cls with
      | WndClass.Shell_TrayWnd => [1]
      | WndClass.Shell_SecondaryTrayWnd => []
    processPath := fun _ => some windows_explorer_path }

/-- The same desktop when the query of the work area fails. -/
def desktop_query_fails : OS :=
  { plain_desktop with spiGetOk := false }

/-- The same desktop with the third-party manager `yasb.exe` running. -/
def desktop_with_manager : OS :=
  { plain_desktop with processes := some [explorer_exe, [121, 97, 115, 98, 46, 101, 120, 101]] }

/-- The same desktop when the taskbar was set to auto-hide before launch. -/
def desktop_autohide : OS :=
  { plain_desktop with appbarState := ABS_AUTOHIDE }

/-- A poll sample at time `t` with no key down. -/
def no_key (t : Nat) : Sample :=
  { t := t, alt_down := false, backtick_down := false, lwin_down := false, rwin_down := false }

/-- A poll sample at time `t` with the left Win key down. -/
def win_key (t : Nat) : Sample :=
  { t := t, alt_down := false, backtick_down := false, lwin_down := true, rwin_down := false }

/-- A poll sample at time `t` with Alt and backtick down. -/
def exit_keys (t : Nat) : Sample :=
  { t := t, alt_down := true, backtick_down := true, lwin_down := false, rwin_down := false }

/-- The plain desktop after startup, from the moment the system starts to
refuse `SPI_SETWORKAREA`. -/
def startup_then_set_refused : MainLoop :=
  { startup plain_desktop with
    w := { (startup plain_desktop).w with
      os := { (startup plain_desktop).w.os with spiSetOk := false } } }

/-- The plain desktop after startup, a press of the Win key at time 1000 and
its release at time 1200: the panel is revealed until time 11000. -/
def revealed_state : MainLoop :=
  (loop_body (loop_body (startup plain_desktop) (win_key 1000)).state (no_key 1200)).state

/-! ## Frame lemmas: what each call leaves alone -/

section Frame

variable (w : World)

@[simp] theorem store_g (f : Globals → Globals) : (store f w).g = f w.g := rfl
@[simp] theorem store_os (f : Globals → Globals) : (store f w).os = w.os := rfl
@[simp] theorem store_trace (f : Globals → Globals) : (store f w).trace = w.trace := rfl

@[simp] theorem log_g (c : Call) : (log c w).g = w.g := rfl
@[simp] theorem log_os (c : Call) : (log c w).os = w.os := rfl
@[simp] theorem log_trace (c : Call) : (log c w).trace = w.trace ++ [c] := rfl

@[simp] theorem ShowWindow_g (h : HWND) (n : Nat) : (ShowWindow h n w).g = w.g := rfl
@[simp] theorem ShowWindow_trace (h : HWND) (n : Nat) :
    (ShowWindow h n w).trace = w.trace ++ [Call.ShowWindow h n] := rfl
@[simp] theorem ShowWindow_windows (h : HWND) (n : Nat) :
    (ShowWindow h n w).os.windows
      = Function.update w.os.windows h ((w.os.windows h).show n) := rfl
@[simp] theorem ShowWindow_workArea (h : HWND) (n : Nat) :
    (ShowWindow h n w).os.workArea = w.os.workArea := rfl
@[simp] theorem ShowWindow_spiSetOk (h : HWND) (n : Nat) :
    (ShowWindow h n w).os.spiSetOk = w.os.spiSetOk := rfl
@[simp] theorem ShowWindow_appbarState (h : HWND) (n : Nat) :
    (ShowWindow h n w).os.appbarState = w.os.appbarState := rfl

@[simp] theorem SetWindowPos_g (h : HWND) (x y cx cy : Int) (f : Nat) :
    (SetWindowPos h x y cx cy f w).g = w.g := rfl
@[simp] theorem SetWindowPos_trace (h : HWND) (x y cx cy : Int) (f : Nat) :
    (SetWindowPos h x y cx cy f w).trace = w.trace ++ [Call.SetWindowPos h x y cx cy f] := rfl
@[simp] theorem SetWindowPos_windows (h : HWND) (x y cx cy : Int) (f : Nat) :
    (SetWindowPos h x y cx cy f w).os.windows
      = Function.update w.os.windows h ((w.os.windows h).setPos x y cx cy f) := rfl

@[simp] theorem Sleep_g (n : Nat) : (Sleep n w).g = w.g := rfl
@[simp] theorem Sleep_os (n : Nat) : (Sleep n w).os = w.os := rfl
@[simp] theorem Sleep_trace (n : Nat) : (Sleep n w).trace = w.trace ++ [Call.Sleep n] := rfl

@[simp] theorem keybd_event_g (v f : Nat) : (keybd_event v f w).g = w.g := rfl
@[simp] theorem keybd_event_os (v f : Nat) : (keybd_event v f w).os = w.os := rfl
@[simp] theorem keybd_event_trace (v f : Nat) :
    (keybd_event v f w).trace = w.trace ++ [Call.keybd_event v f] := rfl

end Frame

/-- A fold of steps that each keep the globals keeps the globals. -/
theorem foldl_g {α : Type} (f : World → α → World) (hf : ∀ w a, (f w a).g = w.g)
    (l : List α) (w : World) : (l.foldl f w).g = w.g := by
  induction l generalizing w with
  | nil => rfl
  | cons a l ih => simp [List.foldl_cons, ih, hf]

/-- The surface a force-hide leaves behind does not depend on the surface
it started from. -/
theorem force_hide_surface_eq (s : Surface) :
    force_hide_surface s = ⟨false, -10000, -10000, 1, 1⟩ := by
  have hmove : (SWP_NOZORDER ||| SWP_NOACTIVATE ||| SWP_FRAMECHANGED) &&& SWP_NOMOVE = 0 := by
    decide
  have hsize : (SWP_NOZORDER ||| SWP_NOACTIVATE ||| SWP_FRAMECHANGED) &&& SWP_NOSIZE = 0 := by
    decide
  simp [force_hide_surface, Surface.show, Surface.setPos, hmove, hsize, SW_HIDE]

@[simp] theorem force_hide_hwnd_g (h : HWND) (w : World) : (force_hide_hwnd h w).g = w.g := rfl

@[simp] theorem force_hide_hwnd_trace (h : HWND) (w : World) :
    (force_hide_hwnd h w).trace = w.trace ++
      [Call.ShowWindow h SW_HIDE,
       Call.SetWindowPos h (-10000) (-10000) 1 1
        (SWP_NOZORDER ||| SWP_NOACTIVATE ||| SWP_FRAMECHANGED)] := by
  simp [force_hide_hwnd]

@[simp] theorem force_hide_hwnd_windows (h : HWND) (w : World) :
    (force_hide_hwnd h w).os.windows
      = Function.update w.os.windows h (force_hide_surface (w.os.windows h)) := by
  simp [force_hide_hwnd, force_hide_surface]

/-- The fold of `enforcement_tick` over a list of handles force-hides the
surfaces of the list that were visible and leaves every other surface as
it was. -/
theorem enforce_fold_windows (l : List HWND) (w : World) (h : HWND) :
    (l.foldl (fun w hwnd => if IsWindowVisible hwnd w then force_hide_hwnd hwnd w else w)
        w).os.windows h
      = if h ∈ l ∧ (w.os.windows h).visible = true then force_hide_surface (w.os.windows h)
        else w.os.windows h := by
  induction l generalizing w with
  | nil => simp
  | cons a l ih =>
    rw [List.foldl_cons, ih]
    by_cases hv : IsWindowVisible a w = true
    · rw [if_pos hv]
      by_cases ha : h = a
      · subst ha
        have hv2 : (w.os.windows h).visible = true := hv
        simp [force_hide_surface_eq, hv2]
      · simp [ha, Function.update_noteq]
    · rw [if_neg hv]
      by_cases ha : h = a
      · subst ha
        have hv2 : ¬ (w.os.windows h).visible = true := hv
        simp [hv2]
      · simp [ha]

theorem enforce_fold_g (l : List HWND) (w : World) :
    (l.foldl (fun w hwnd => if IsWindowVisible hwnd w then force_hide_hwnd hwnd w else w)
        w).g = w.g := by
  apply foldl_g
  intro w a
  split <;> simp

/-- C10: with a surface modelled as (visible, x, y, width, height),
force-hiding is idempotent and always ends in the invisible surface at
(-10000, -10000) of size 1 by 1; on the world, `force_hide_hwnd` puts exactly
that surface behind its handle, and a second call changes no surface. -/
theorem C10_force_hide_idempotent (s : Surface) :
    force_hide_surface (force_hide_surface s) = force_hide_surface s ∧
    (force_hide_surface s).visible = false ∧
    (force_hide_surface s).x = -10000 ∧ (force_hide_surface s).y = -10000 ∧
    (force_hide_surface s).width = 1 ∧ (force_hide_surface s).height = 1 ∧
    ∀ (h : HWND) (w : World),
      (force_hide_hwnd h w).os.windows h = force_hide_surface (w.os.windows h) ∧
      (force_hide_hwnd h (force_hide_hwnd h w)).os.windows = (force_hide_hwnd h w).os.windows := by
  refine ⟨by simp [force_hide_surface_eq], by simp [force_hide_surface_eq],
    by simp [force_hide_surface_eq], by simp [force_hide_surface_eq],
    by simp [force_hide_surface_eq], by simp [force_hide_surface_eq], ?_⟩
  intro h w
  constructor
  · simp
  · simp [force_hide_surface_eq]

/-- C6: one iteration body of `enforcement_worker` changes no global
variable (so none of `g_desired_hidden`, `g_panel_temp_visible`,
`g_show_deadline_ms`, `g_exit_flag`); when `g_desired_hidden` is set and
`g_panel_temp_visible` is clear it force-hides exactly the Explorer taskbars
that report visible and leaves every other surface as it was, after which no
Explorer taskbar is visible; otherwise it changes no surface. -/
theorem C6_enforcement_tick_frame (w : World) :
    (enforcement_tick w).g = w.g ∧
    (∀ h : HWND, (enforcement_tick w).os.windows h =
      if (w.g.g_desired_hidden = true ∧ w.g.g_panel_temp_visible = false) ∧
          h ∈ w.g.g_explorer_taskbars ∧ (w.os.windows h).visible = true
      then force_hide_surface (w.os.windows h) else w.os.windows h) ∧
    (w.g.g_desired_hidden = true ∧ w.g.g_panel_temp_visible = false →
      ∀ h ∈ w.g.g_explorer_taskbars, ((enforcement_tick w).os.windows h).visible = false) ∧
    (¬ (w.g.g_desired_hidden = true ∧ w.g.g_panel_temp_visible = false) →
      (enforcement_tick w).os.windows = w.os.windows) := by
  have hwin : ∀ h : HWND, (enforcement_tick w).os.windows h =
      if (w.g.g_desired_hidden = true ∧ w.g.g_panel_temp_visible = false) ∧
          h ∈ w.g.g_explorer_taskbars ∧ (w.os.windows h).visible = true
      then force_hide_surface (w.os.windows h) else w.os.windows h := by
    intro h
    unfold enforcement_tick
    by_cases hc : w.g.g_desired_hidden = true ∧ w.g.g_panel_temp_visible = false
    · obtain ⟨h1, h2⟩ := hc
      simp [h1, h2, enforce_fold_windows]
    · have hb : ¬ (w.g.g_desired_hidden && !w.g.g_panel_temp_visible) = true := by
        simpa using hc
      simp [hb, hc]
  refine ⟨?_, hwin, ?_, ?_⟩
  · unfold enforcement_tick
    split <;> simp [enforce_fold_g]
  · intro hc h hmem
    rw [hwin h]
    by_cases hv : (w.os.windows h).visible = true
    · simp [hc, hmem, hv, force_hide_surface_eq]
    · simp [hv]
  · intro hc
    funext h
    rw [hwin h]
    simp [hc]

/-! ## Path classification -/

theorem compare3_eq_zero (a b : wstring) : compare3 a b = 0 ↔ a = b := by
  induction a generalizing b with
  | nil => cases b <;> simp [compare3]
  | cons x xs ih =>
    cases b with
    | nil => simp [compare3]
    | cons y ys =>
      simp only [compare3, List.cons.injEq]
      by_cases h1 : x < y
      · simp [h1]; omega
      · by_cases h2 : y < x
        · simp [h1, h2]; omega
        · have : x = y := by omega
          simp [h1, h2, this, ih]

theorem towlower_idem (c : Nat) : towlower (towlower c) = towlower c := by
  unfold towlower
  by_cases h : 65 ≤ c ∧ c ≤ 90
  · have h2 : ¬ (65 ≤ c + 32 ∧ c + 32 ≤ 90) := by omega
    rw [if_pos h, if_neg h2]
  · rw [if_neg h, if_neg h]

theorem to_lower_idem (s : wstring) : to_lower (to_lower s) = to_lower s := by
  simp [to_lower, towlower_idem]

theorem to_lower_length (s : wstring) : (to_lower s).length = s.length := by
  simp [to_lower]

/-- The function `ends_with_icase` decides whether the lowered suffix is a
suffix of the lowered string. -/
theorem ends_with_icase_iff (s suf : wstring) :
    ends_with_icase s suf = true ↔ to_lower suf <:+ to_lower s := by
  unfold ends_with_icase
  by_cases hlen : s.length < suf.length
  · simp only [hlen, if_true]
    constructor
    · intro h; cases h
    · intro h
      have := h.length_le
      simp only [to_lower_length] at this
      omega
  · simp only [hlen, if_false, wstring_compare, beq_iff_eq, compare3_eq_zero]
    have hle : (to_lower suf).length ≤ (to_lower s).length := by
      simp only [to_lower_length]; omega
    rw [List.suffix_iff_eq_drop, List.take_of_length_le]
    · exact eq_comm
    · simp only [List.length_drop]; omega

theorem towlower_separator (c : Nat) (h : is_separator c = true) : towlower c = c := by
  simp only [is_separator, Bool.or_eq_true, beq_iff_eq] at h
  unfold towlower
  split <;> omega

theorem separator_of_towlower (c : Nat) (h : is_separator (towlower c) = true) :
    is_separator c = true := by
  simp only [is_separator, Bool.or_eq_true, beq_iff_eq] at h ⊢
  unfold towlower at h
  split at h <;> omega

/-- A path that contains a separator splits at its last one. -/
theorem split_at_last_separator (p : wstring) (h : ∃ c ∈ p, is_separator c = true) :
    ∃ pre c, is_separator c = true ∧ p = pre ++ c :: final_segment p := by
  have hsplit := List.takeWhile_append_dropWhile (fun c => !is_separator c) p.reverse
  have hne : p.reverse.dropWhile (fun c => !is_separator c) ≠ [] := by
    intro hnil
    rw [List.dropWhile_eq_nil_iff] at hnil
    obtain ⟨c, hc, hsep⟩ := h
    have := hnil c (List.mem_reverse.mpr hc)
    simp [hsep] at this
  have hhead := List.head_dropWhile_not (fun c => !is_separator c) p.reverse hne
  obtain ⟨c, rest, hcr⟩ := List.exists_cons_of_ne_nil hne
  refine ⟨rest.reverse, c, ?_, ?_⟩
  · simp only [hcr, List.head_cons] at hhead
    simpa using hhead
  · rw [hcr] at hsplit
    have := congrArg List.reverse hsplit
    simpa [final_segment] using this.symm

/-- The final segment of a path that ends in a separator followed by
separator-free text is that text. -/
theorem final_segment_append (pre : wstring) (c : Nat) (s : wstring)
    (hc : is_separator c = true) (hs : ∀ x ∈ s, is_separator x = false) :
    final_segment (pre ++ c :: s) = s := by
  unfold final_segment
  have hrev : (pre ++ c :: s).reverse = s.reverse ++ c :: pre.reverse := by simp
  rw [hrev, List.takeWhile_append_of_pos]
  · simp [hc]
  · intro a ha
    simp [hs a (List.mem_reverse.mp ha)]

/-- When the lowered path ends in a separator followed by `explorer.exe`, the
path contains a separator and its final segment is `explorer.exe` up to
case. -/
theorem final_segment_of_suffix (p : wstring) (sep : Nat) (hsep : is_separator sep = true) :
    (sep :: explorer_exe) <:+ to_lower p →
      (∃ c ∈ p, is_separator c = true) ∧ to_lower (final_segment p) = explorer_exe := by
  rintro ⟨pre, hpre⟩
  have hmap : List.map towlower p = pre ++ sep :: explorer_exe := hpre.symm
  rw [List.map_eq_append_iff] at hmap
  obtain ⟨l1, l2, hp, -, h2⟩ := hmap
  rw [List.map_eq_cons_iff] at h2
  obtain ⟨c, s, hl2, hc, hs⟩ := h2
  have hcsep : is_separator c = true := separator_of_towlower c (by rw [hc]; exact hsep)
  have hnosep : ∀ x ∈ s, is_separator x = false := by
    intro x hx
    by_contra hcon
    have hx1 : is_separator x = true := by simpa using hcon
    have hmem : towlower x ∈ explorer_exe := by
      rw [← hs]; exact List.mem_map_of_mem _ hx
    rw [towlower_separator x hx1] at hmem
    have : ∀ y ∈ explorer_exe, is_separator y = false := by decide
    rw [this x hmem] at hx1
    cases hx1
  subst hp hl2
  refine ⟨⟨c, by simp, hcsep⟩, ?_⟩
  rw [final_segment_append l1 c s hcsep hnosep]
  exact hs

/-- When the path contains a separator and its final segment is
`explorer.exe` up to case, the lowered path ends in that separator followed
by `explorer.exe`. -/
theorem suffix_of_final_segment (p : wstring) (hsep : ∃ c ∈ p, is_separator c = true)
    (hseg : to_lower (final_segment p) = explorer_exe) :
    ∃ c, is_separator c = true ∧ (c :: explorer_exe) <:+ to_lower p := by
  obtain ⟨pre, c, hc, hp⟩ := split_at_last_separator p hsep
  refine ⟨c, hc, to_lower pre, ?_⟩
  have hmap : to_lower p = to_lower pre ++ towlower c :: to_lower (final_segment p) := by
    conv_lhs => rw [hp]
    simp [to_lower]
  rw [hmap, hseg, towlower_separator c hc]

/-- C7, as the code has it: the classification test of `enumerate_taskbars`
holds exactly when the path contains a separator and its final segment (the
text after the last backslash or slash) equals `explorer.exe` ignoring
case. -/
theorem C7_classification_needs_separator (p : wstring) :
    is_explorer_path p = true ↔
      (∃ c ∈ p, is_separator c = true) ∧ final_segment_is_explorer p = true := by
  have hE : to_lower explorer_exe = explorer_exe := by decide
  have hB : to_lower backslash_explorer_exe = 92 :: explorer_exe := by decide
  have hS : to_lower slash_explorer_exe = 47 :: explorer_exe := by decide
  simp only [is_explorer_path, Bool.or_eq_true, ends_with_icase_iff, to_lower_idem, hB, hS,
    final_segment_is_explorer, hE, beq_iff_eq]
  constructor
  · rintro (h | h)
    · exact final_segment_of_suffix p 92 (by decide) h
    · exact final_segment_of_suffix p 47 (by decide) h
  · rintro ⟨hsep, hseg⟩
    obtain ⟨c, hc, hsuf⟩ := suffix_of_final_segment p hsep hseg
    simp only [is_separator, Bool.or_eq_true, beq_iff_eq] at hc
    rcases hc with rfl | rfl
    · exact Or.inl hsuf
    · exact Or.inr hsuf

/-- C7 fails for the bare name `explorer.exe`: it has no separator, so its
final segment is the whole of it and equals `explorer.exe`, yet the
classification test of `enumerate_taskbars` rejects it. -/
theorem C7_bare_name_rejected :
    ¬ (is_explorer_path explorer_exe = true ↔ final_segment_is_explorer explorer_exe = true) := by
  decide

/-! ## Globals and call log of the composite functions -/

/-- A fold of steps that each append a fixed list of calls appends their
concatenation. -/
theorem foldl_trace {α : Type} (f : World → α → World) (c : α → List Call)
    (hf : ∀ w a, (f w a).trace = w.trace ++ c a) (l : List α) (w : World) :
    (l.foldl f w).trace = w.trace ++ l.flatMap c := by
  induction l generalizing w with
  | nil => simp
  | cons a l ih => simp [List.foldl_cons, ih, hf]

@[simp] theorem reactivate_pulse_g (h : HWND) (w : World) : (reactivate_pulse h w).g = w.g := rfl

@[simp] theorem reactivate_pulse_trace (h : HWND) (w : World) :
    (reactivate_pulse h w).trace = w.trace ++ show_then_hide_pulse h := by
  simp [reactivate_pulse, show_then_hide_pulse]

/-- The body of the loop of `hide_system_taskbars` for one handle. -/
theorem hide_step_g (r : Bool) (h : HWND) (w : World) :
    (force_hide_hwnd h
      (if r = true then (List.range 2).foldl (fun w _ => reactivate_pulse h w) w
        else ShowWindow h SW_HIDE w)).g = w.g := by
  cases r <;> simp [List.range, List.range.loop]

theorem hide_step_trace (r : Bool) (h : HWND) (w : World) :
    (force_hide_hwnd h
      (if r = true then (List.range 2).foldl (fun w _ => reactivate_pulse h w) w
        else ShowWindow h SW_HIDE w)).trace
      = w.trace ++ ((if r = true then show_then_hide_pulse h ++ show_then_hide_pulse h
          else [Call.ShowWindow h SW_HIDE]) ++ force_hide_calls h) := by
  cases r <;> simp [List.range, List.range.loop, force_hide_calls]

@[simp] theorem hide_system_taskbars_g (r : Bool) (w : World) :
    (hide_system_taskbars r w).g = w.g := by
  unfold hide_system_taskbars
  rw [foldl_g _ (fun w h => hide_step_g r h w)]
  rfl

theorem hide_system_taskbars_trace (r : Bool) (w : World) :
    (hide_system_taskbars r w).trace = w.trace ++
      Call.enter (Fn.hide_system_taskbars r) ::
        w.g.g_explorer_taskbars.flatMap (fun h =>
          (if r = true then show_then_hide_pulse h ++ show_then_hide_pulse h
            else [Call.ShowWindow h SW_HIDE]) ++ force_hide_calls h) := by
  unfold hide_system_taskbars
  rw [foldl_trace _ _ (fun w h => hide_step_trace r h w)]
  simp

@[simp] theorem show_system_taskbars_g (w : World) : (show_system_taskbars w).g = w.g := by
  unfold show_system_taskbars
  rw [foldl_g _ (fun w h => ShowWindow_g w h SW_SHOWNOACTIVATE)]
  rfl

theorem show_system_taskbars_trace (w : World) :
    (show_system_taskbars w).trace = w.trace ++
      Call.enter Fn.show_system_taskbars ::
        w.g.g_explorer_taskbars.flatMap (fun h => [Call.ShowWindow h SW_SHOWNOACTIVATE]) := by
  unfold show_system_taskbars
  rw [foldl_trace _ _ (fun w h => ShowWindow_trace w h SW_SHOWNOACTIVATE)]
  simp

@[simp] theorem close_start_menu_g (w : World) : (close_start_menu w).g = w.g := rfl
@[simp] theorem close_start_menu_os (w : World) : (close_start_menu w).os = w.os := rfl

theorem close_start_menu_trace (w : World) :
    (close_start_menu w).trace = w.trace ++
      [Call.enter Fn.close_start_menu, Call.keybd_event VK_ESCAPE 0, Call.Sleep 20,
       Call.keybd_event VK_ESCAPE KEYEVENTF_KEYUP] := by
  simp [close_start_menu]

@[simp] theorem set_fullscreen_work_area_g (w : World) :
    (set_fullscreen_work_area w).g = w.g := by
  cases h : w.os.spiSetOk <;>
    simp [set_fullscreen_work_area, SystemParametersInfoW_SETWORKAREA,
      broadcast_workarea_change, h]

theorem set_fullscreen_work_area_trace (w : World) :
    (set_fullscreen_work_area w).trace = w.trace ++
      Call.enter Fn.set_fullscreen_work_area ::
      Call.SPI_SETWORKAREA ⟨0, 0, w.os.cxScreen, w.os.cyScreen⟩
        (SPIF_UPDATEINIFILE ||| SPIF_SENDCHANGE) ::
      (if w.os.spiSetOk = true then [Call.broadcast_workarea_change] else []) := by
  cases h : w.os.spiSetOk <;>
    simp [set_fullscreen_work_area, SystemParametersInfoW_SETWORKAREA,
      broadcast_workarea_change, h]

@[simp] theorem restore_work_area_g (w : World) : (restore_work_area w).g = w.g := by
  cases h1 : w.g.g_has_original_work_area <;> cases h2 : w.os.spiSetOk <;>
    simp [restore_work_area, SystemParametersInfoW_SETWORKAREA, broadcast_workarea_change,
      h1, h2]

theorem restore_work_area_trace (w : World) :
    (restore_work_area w).trace = w.trace ++
      Call.enter Fn.restore_work_area ::
      (if w.g.g_has_original_work_area = true then
        Call.SPI_SETWORKAREA w.g.g_original_work_area (SPIF_UPDATEINIFILE ||| SPIF_SENDCHANGE) ::
          (if w.os.spiSetOk = true then [Call.broadcast_workarea_change] else [])
       else []) := by
  cases h1 : w.g.g_has_original_work_area <;> cases h2 : w.os.spiSetOk <;>
    simp [restore_work_area, SystemParametersInfoW_SETWORKAREA, broadcast_workarea_change,
      h1, h2]

/-! ## Effects on the operating system -/

/-- A property kept by every step of a fold is kept by the fold. -/
theorem foldl_keeps {α : Type} (P : World → Prop) (f : World → α → World)
    (hf : ∀ w a, P w → P (f w a)) (l : List α) (w : World) (hw : P w) : P (l.foldl f w) := by
  induction l generalizing w with
  | nil => exact hw
  | cons a l ih => exact ih (f w a) (hf w a hw)

/-- After `show_system_taskbars` every Explorer taskbar is marked visible. -/
theorem show_system_taskbars_visible (w : World) (h : HWND)
    (hmem : h ∈ w.g.g_explorer_taskbars) :
    ((show_system_taskbars w).os.windows h).visible = true := by
  unfold show_system_taskbars
  have key : ∀ (l : List HWND) (w : World),
      (h ∈ l ∨ (w.os.windows h).visible = true) →
      ((l.foldl (fun w hwnd => ShowWindow hwnd SW_SHOWNOACTIVATE w) w).os.windows h).visible
        = true := by
    intro l
    induction l with
    | nil => intro w hw; simpa using hw
    | cons a l ih =>
      intro w hw
      rw [List.foldl_cons]
      apply ih
      by_cases ha : h = a
      · right
        subst ha
        simp [Surface.show, SW_SHOWNOACTIVATE, SW_HIDE]
      · rcases hw with hw | hw
        · left
          simpa [ha] using hw
        · right
          simpa [Function.update_noteq ha] using hw
  exact key _ _ (Or.inl hmem)

theorem show_system_taskbars_workArea (w : World) :
    (show_system_taskbars w).os.workArea = w.os.workArea := by
  unfold show_system_taskbars
  exact foldl_keeps (fun v => v.os.workArea = w.os.workArea) _
    (fun v a hv => by simpa using hv) _ _ rfl

theorem show_system_taskbars_spiSetOk (w : World) :
    (show_system_taskbars w).os.spiSetOk = w.os.spiSetOk := by
  unfold show_system_taskbars
  exact foldl_keeps (fun v => v.os.spiSetOk = w.os.spiSetOk) _
    (fun v a hv => by simpa using hv) _ _ rfl

theorem restore_work_area_windows (w : World) :
    (restore_work_area w).os.windows = w.os.windows := by
  cases h1 : w.g.g_has_original_work_area <;> cases h2 : w.os.spiSetOk <;>
    simp [restore_work_area, SystemParametersInfoW_SETWORKAREA, broadcast_workarea_change,
      h1, h2]

/-- The function `restore_work_area` writes the snapshot into the work area
when a snapshot exists and the system accepts the call, and leaves the work
area as it is otherwise. -/
theorem restore_work_area_workArea (w : World) :
    (restore_work_area w).os.workArea =
      if w.g.g_has_original_work_area = true ∧ w.os.spiSetOk = true
      then w.g.g_original_work_area else w.os.workArea := by
  cases h1 : w.g.g_has_original_work_area <;> cases h2 : w.os.spiSetOk <;>
    simp [restore_work_area, SystemParametersInfoW_SETWORKAREA, broadcast_workarea_change,
      h1, h2]

@[simp] theorem set_taskbar_autohide_g (b : Bool) (w : World) :
    (set_taskbar_autohide b w).g = w.g := rfl
@[simp] theorem set_taskbar_autohide_windows (b : Bool) (w : World) :
    (set_taskbar_autohide b w).os.windows = w.os.windows := rfl
@[simp] theorem set_taskbar_autohide_workArea (b : Bool) (w : World) :
    (set_taskbar_autohide b w).os.workArea = w.os.workArea := rfl
@[simp] theorem set_taskbar_autohide_appbarState (b : Bool) (w : World) :
    (set_taskbar_autohide b w).os.appbarState = if b = true then ABS_AUTOHIDE else ABS_ALWAYSONTOP :=
  rfl

theorem set_taskbar_autohide_trace (b : Bool) (w : World) :
    (set_taskbar_autohide b w).trace = w.trace ++
      [Call.SHAppBarMessage ABM_SETSTATE (get_primary_taskbar_hwnd w)
        (if b = true then ABS_AUTOHIDE else ABS_ALWAYSONTOP)] := rfl

/-- Once the exit flag is set the enforcement loop does nothing more. -/
theorem enforcement_worker_stopped (fuel : Nat) (w : World) (h : w.g.g_exit_flag = true) :
    enforcement_worker fuel w = w := by
  cases fuel <;> simp [enforcement_worker, h]

/-! ## Target discovery leaves everything but the two lists alone -/

theorem classify_push_shape (h : HWND) (w : World) (X Y : List HWND) :
    ∃ X1 Y1, classify_push h (w.with_lists X Y) = w.with_lists X1 Y1 := by
  unfold classify_push
  split
  · exact ⟨_, _, rfl⟩
  · exact ⟨_, _, rfl⟩

/-- The function `enumerate_taskbars` changes the two taskbar lists and
nothing else. -/
theorem enumerate_taskbars_shape (w : World) :
    ∃ X Y, enumerate_taskbars w = w.with_lists X Y := by
  unfold enumerate_taskbars
  have push : ∀ (h : HWND) (v : World), (∃ X Y, v = w.with_lists X Y) →
      (∃ X Y, classify_push h v = w.with_lists X Y) := by
    rintro h v ⟨X, Y, rfl⟩
    exact classify_push_shape h w X Y
  apply foldl_keeps (fun v => ∃ X Y, v = w.with_lists X Y)
  · intro v cls hv
    apply foldl_keeps (fun v => ∃ X Y, v = w.with_lists X Y)
    · intro v1 h hv1
      split
      · exact hv1
      · exact push h v1 hv1
    · split
      · split
        · exact push _ v hv
        · exact hv
      · exact hv
  · exact ⟨[], [], rfl⟩

/-! ## Functions entered by each part of the program -/

theorem entered_append (a b : List Call) : entered (a ++ b) = entered a ++ entered b := by
  simp [entered]

theorem entered_flatMap_nil {α : Type} (l : List α) (f : α → List Call)
    (hf : ∀ a, entered (f a) = []) : entered (l.flatMap f) = [] := by
  induction l with
  | nil => rfl
  | cons a l ih => simp [entered_append, hf, ih]

/-- When the log of the later world extends the log of the earlier one, the
new calls are the extension. -/
theorem new_calls_of_trace (w v : World) (X : List Call) (h : v.trace = w.trace ++ X) :
    new_calls w v = X := by
  simp [new_calls, h]

theorem new_calls_self (w : World) : new_calls w w = [] := by
  simp [new_calls]

/-- The functions entered between two worlds, read off from the functions
entered in the whole logs. -/
theorem entered_new_calls (w v : World) (E : List Fn) (hpre : w.trace <+: v.trace)
    (h : entered v.trace = entered w.trace ++ E) : entered (new_calls w v) = E := by
  obtain ⟨X, hX⟩ := hpre
  rw [new_calls_of_trace w v X hX.symm]
  rw [← hX, entered_append] at h
  exact List.append_cancel_left h

theorem hide_system_taskbars_entered (r : Bool) (w : World) :
    entered (hide_system_taskbars r w).trace = entered w.trace ++ [Fn.hide_system_taskbars r] := by
  rw [hide_system_taskbars_trace, entered_append]
  congr 1
  have : entered (w.g.g_explorer_taskbars.flatMap (fun h =>
          (if r = true then show_then_hide_pulse h ++ show_then_hide_pulse h
            else [Call.ShowWindow h SW_HIDE]) ++ force_hide_calls h)) = [] := by
    apply entered_flatMap_nil
    intro h
    cases r <;> rfl
  change Fn.hide_system_taskbars r :: entered _ = _
  rw [this]

theorem show_system_taskbars_entered (w : World) :
    entered (show_system_taskbars w).trace = entered w.trace ++ [Fn.show_system_taskbars] := by
  rw [show_system_taskbars_trace, entered_append]
  congr 1
  have : entered (w.g.g_explorer_taskbars.flatMap
      (fun h => [Call.ShowWindow h SW_SHOWNOACTIVATE])) = [] :=
    entered_flatMap_nil _ _ (fun _ => rfl)
  change Fn.show_system_taskbars :: entered _ = _
  rw [this]

theorem close_start_menu_entered (w : World) :
    entered (close_start_menu w).trace = entered w.trace ++ [Fn.close_start_menu] := by
  rw [close_start_menu_trace, entered_append]
  rfl

theorem set_fullscreen_work_area_entered (w : World) :
    entered (set_fullscreen_work_area w).trace
      = entered w.trace ++ [Fn.set_fullscreen_work_area] := by
  rw [set_fullscreen_work_area_trace, entered_append]
  cases w.os.spiSetOk <;> rfl

theorem restore_work_area_entered (w : World) :
    entered (restore_work_area w).trace = entered w.trace ++ [Fn.restore_work_area] := by
  rw [restore_work_area_trace, entered_append]
  cases w.g.g_has_original_work_area <;> cases w.os.spiSetOk <;> rfl

theorem Sleep_entered (n : Nat) (w : World) : entered (Sleep n w).trace = entered w.trace := by
  simp [entered_append, entered]

/-! Each function only ever appends to the call log. -/

theorem entered_Sleep_single (n : Nat) : entered [Call.Sleep n] = [] := rfl

theorem store_extends (f : Globals → Globals) (v w : World) (h : v.trace <+: w.trace) :
    v.trace <+: (store f w).trace := h

theorem hide_system_taskbars_extends (r : Bool) (v w : World) (h : v.trace <+: w.trace) :
    v.trace <+: (hide_system_taskbars r w).trace :=
  h.trans ⟨_, (hide_system_taskbars_trace r w).symm⟩

theorem show_system_taskbars_extends (v w : World) (h : v.trace <+: w.trace) :
    v.trace <+: (show_system_taskbars w).trace :=
  h.trans ⟨_, (show_system_taskbars_trace w).symm⟩

theorem close_start_menu_extends (v w : World) (h : v.trace <+: w.trace) :
    v.trace <+: (close_start_menu w).trace :=
  h.trans ⟨_, (close_start_menu_trace w).symm⟩

theorem set_fullscreen_work_area_extends (v w : World) (h : v.trace <+: w.trace) :
    v.trace <+: (set_fullscreen_work_area w).trace :=
  h.trans ⟨_, (set_fullscreen_work_area_trace w).symm⟩

theorem restore_work_area_extends (v w : World) (h : v.trace <+: w.trace) :
    v.trace <+: (restore_work_area w).trace :=
  h.trans ⟨_, (restore_work_area_trace w).symm⟩

theorem Sleep_extends (n : Nat) (v w : World) (h : v.trace <+: w.trace) :
    v.trace <+: (Sleep n w).trace :=
  h.trans ⟨_, (Sleep_trace w n).symm⟩

theorem set_taskbar_autohide_extends (b : Bool) (v w : World) (h : v.trace <+: w.trace) :
    v.trace <+: (set_taskbar_autohide b w).trace :=
  h.trans ⟨_, (set_taskbar_autohide_trace b w).symm⟩

theorem set_taskbar_autohide_entered (b : Bool) (w : World) :
    entered (set_taskbar_autohide b w).trace = entered w.trace := by
  rw [set_taskbar_autohide_trace, entered_append]
  simp [entered]

/-! ## The three transitions -/

@[simp] theorem restore_if_safe_g (w : World) : (restore_if_safe w).g = w.g := by
  unfold restore_if_safe
  split <;> simp

theorem restore_if_safe_entered (w : World) :
    entered (restore_if_safe w).trace = entered w.trace ++
      (if w.g.g_has_original_work_area = true ∧ safe_gate w.g = true
        then [Fn.restore_work_area] else []) := by
  unfold restore_if_safe safe_gate
  cases w.g.g_has_original_work_area <;> cases w.g.g_has_taskbar_managers <;>
    cases w.g.g_third_party_taskbars <;> simp [restore_work_area_entered]

theorem restore_if_safe_extends (v w : World) (h : v.trace <+: w.trace) :
    v.trace <+: (restore_if_safe w).trace := by
  unfold restore_if_safe
  split
  · exact restore_work_area_extends v w h
  · exact h

@[simp] theorem expand_if_safe_g (w : World) : (expand_if_safe w).g = w.g := by
  unfold expand_if_safe
  split <;> simp

theorem expand_if_safe_entered (w : World) :
    entered (expand_if_safe w).trace = entered w.trace ++
      (if safe_gate w.g = true then [Fn.set_fullscreen_work_area] else []) := by
  unfold expand_if_safe safe_gate
  cases w.g.g_has_taskbar_managers <;> cases w.g.g_third_party_taskbars <;>
    simp [set_fullscreen_work_area_entered]

theorem expand_if_safe_extends (v w : World) (h : v.trace <+: w.trace) :
    v.trace <+: (expand_if_safe w).trace := by
  unfold expand_if_safe
  split
  · exact set_fullscreen_work_area_extends v w h
  · exact h

theorem reveal_start_g (t : Nat) (w : World) :
    (reveal_start t w).g =
      { w.g with g_panel_temp_visible := true, g_desired_hidden := false,
                 g_show_deadline_ms := (t + 10000) % 2 ^ 64 } := by
  simp [reveal_start]

theorem reveal_start_extends (t : Nat) (w : World) : w.trace <+: (reveal_start t w).trace := by
  unfold reveal_start
  apply Sleep_extends
  apply store_extends
  apply restore_if_safe_extends
  apply show_system_taskbars_extends
  exact List.prefix_refl _

theorem reveal_start_entered (t : Nat) (w : World) :
    entered (reveal_start t w).trace = entered w.trace ++
      Fn.show_system_taskbars ::
        (if w.g.g_has_original_work_area = true ∧ safe_gate w.g = true
          then [Fn.restore_work_area] else []) := by
  simp [reveal_start, entered_append, entered_Sleep_single, restore_if_safe_entered,
    show_system_taskbars_entered, safe_gate]

theorem repress_dismiss_g (w : World) :
    (repress_dismiss w).g =
      { w.g with g_desired_hidden := true, g_panel_temp_visible := false } := by
  simp [repress_dismiss]

theorem repress_dismiss_extends (w : World) : w.trace <+: (repress_dismiss w).trace := by
  unfold repress_dismiss
  apply Sleep_extends
  apply expand_if_safe_extends
  apply hide_system_taskbars_extends
  apply store_extends
  apply store_extends
  apply close_start_menu_extends
  exact List.prefix_refl _

theorem repress_dismiss_entered (w : World) :
    entered (repress_dismiss w).trace = entered w.trace ++
      Fn.close_start_menu :: Fn.hide_system_taskbars false ::
        (if safe_gate w.g = true then [Fn.set_fullscreen_work_area] else []) := by
  simp [repress_dismiss, entered_append, entered_Sleep_single, expand_if_safe_entered,
    hide_system_taskbars_entered, close_start_menu_entered, safe_gate]

theorem timeout_dismiss_g (w : World) :
    (timeout_dismiss w).g =
      { w.g with g_desired_hidden := true, g_panel_temp_visible := false } := by
  simp [timeout_dismiss]

theorem timeout_dismiss_extends (w : World) : w.trace <+: (timeout_dismiss w).trace := by
  unfold timeout_dismiss
  apply expand_if_safe_extends
  apply hide_system_taskbars_extends
  apply store_extends
  apply store_extends
  apply close_start_menu_extends
  exact List.prefix_refl _

theorem timeout_dismiss_entered (w : World) :
    entered (timeout_dismiss w).trace = entered w.trace ++
      Fn.close_start_menu :: Fn.hide_system_taskbars true ::
        (if safe_gate w.g = true then [Fn.set_fullscreen_work_area] else []) := by
  simp [timeout_dismiss, expand_if_safe_entered, hide_system_taskbars_entered,
    close_start_menu_entered, safe_gate]

/-! ## One iteration of the main loop, case by case -/

theorem loop_body_brk (s : MainLoop) (p : Sample) (hexit : exit_gesture s p = true) :
    loop_body s p = Step.brk s := by
  unfold exit_gesture at hexit
  simp [loop_body, hexit]

theorem loop_body_idle (s : MainLoop) (p : Sample) (hexit : exit_gesture s p = false)
    (hedge : rising_edge s p = false)
    (hno : ¬ (s.w.g.g_panel_temp_visible = true ∧ s.w.g.g_show_deadline_ms ≤ p.t)) :
    loop_body s p = Step.next (end_of_body s.w p) := by
  unfold exit_gesture at hexit
  unfold rising_edge win_down at hedge
  have hno2 : ¬ (s.w.g.g_panel_temp_visible && decide (p.t ≥ s.w.g.g_show_deadline_ms)) = true := by
    simpa using hno
  simp [loop_body, end_of_body, win_down, hexit, hedge, hno2]

theorem loop_body_timeout (s : MainLoop) (p : Sample) (hexit : exit_gesture s p = false)
    (hedge : rising_edge s p = false) (htv : s.w.g.g_panel_temp_visible = true)
    (ht : s.w.g.g_show_deadline_ms ≤ p.t) :
    loop_body s p = Step.next (end_of_body (timeout_dismiss s.w) p) := by
  unfold exit_gesture at hexit
  unfold rising_edge win_down at hedge
  have hyes : (s.w.g.g_panel_temp_visible && decide (p.t ≥ s.w.g.g_show_deadline_ms)) = true := by
    simp [htv, ht]
  simp [loop_body, end_of_body, win_down, hexit, hedge, hyes]

theorem loop_body_repress (s : MainLoop) (p : Sample) (hexit : exit_gesture s p = false)
    (hedge : rising_edge s p = true) (htv : s.w.g.g_panel_temp_visible = true) :
    loop_body s p = Step.next (end_of_body (repress_dismiss s.w) p) := by
  unfold exit_gesture at hexit
  unfold rising_edge win_down at hedge
  simp [loop_body, end_of_body, win_down, hexit, hedge, htv, repress_dismiss_g]

theorem loop_body_reveal (s : MainLoop) (p : Sample) (hexit : exit_gesture s p = false)
    (hedge : rising_edge s p = true) (htv : s.w.g.g_panel_temp_visible = false)
    (ht : p.t < (p.t + 10000) % 2 ^ 64) :
    loop_body s p = Step.next (end_of_body (reveal_start p.t s.w) p) := by
  unfold exit_gesture at hexit
  unfold rising_edge win_down at hedge
  have h64 : (2 : Nat) ^ 64 = 18446744073709551616 := by norm_num
  rw [h64] at ht
  have hno : ¬ ((p.t + 10000) % 18446744073709551616 ≤ p.t) := by omega
  simp [loop_body, end_of_body, win_down, hexit, hedge, htv, reveal_start_g, hno]

theorem loop_body_reveal_wrapped (s : MainLoop) (p : Sample) (hexit : exit_gesture s p = false)
    (hedge : rising_edge s p = true) (htv : s.w.g.g_panel_temp_visible = false)
    (ht : (p.t + 10000) % 2 ^ 64 ≤ p.t) :
    loop_body s p = Step.next (end_of_body (timeout_dismiss (reveal_start p.t s.w)) p) := by
  unfold exit_gesture at hexit
  unfold rising_edge win_down at hedge
  have h64 : (2 : Nat) ^ 64 = 18446744073709551616 := by norm_num
  rw [h64] at ht
  have hyes : (p.t + 10000) % 18446744073709551616 ≤ p.t := ht
  simp [loop_body, end_of_body, win_down, hexit, hedge, htv, reveal_start_g, hyes]

/-- What an iteration of the main loop does to the globals: it writes at
most `g_desired_hidden`, `g_panel_temp_visible` and `g_show_deadline_ms`, and
either leaves the first two as they were or leaves them in a pair that
satisfies the state invariant. -/
theorem loop_body_g (s : MainLoop) (p : Sample) :
    ∃ (dh tv : Bool) (d : Nat),
      (loop_body s p).state.w.g =
        { s.w.g with g_desired_hidden := dh, g_panel_temp_visible := tv,
                     g_show_deadline_ms := d } ∧
      ((tv = true → dh = false) ∨
        (dh = s.w.g.g_desired_hidden ∧ tv = s.w.g.g_panel_temp_visible)) := by
  cases hexit : exit_gesture s p
  · cases hedge : rising_edge s p
    · by_cases hto : s.w.g.g_panel_temp_visible = true ∧ s.w.g.g_show_deadline_ms ≤ p.t
      · rw [loop_body_timeout s p hexit hedge hto.1 hto.2]
        exact ⟨true, false, s.w.g.g_show_deadline_ms,
          by simp [Step.state, end_of_body, timeout_dismiss_g], Or.inl (by simp)⟩
      · rw [loop_body_idle s p hexit hedge hto]
        exact ⟨_, _, _, rfl, Or.inr ⟨rfl, rfl⟩⟩
    · cases htv : s.w.g.g_panel_temp_visible
      · by_cases hw : p.t < (p.t + 10000) % 2 ^ 64
        · rw [loop_body_reveal s p hexit hedge htv hw]
          exact ⟨false, true, (p.t + 10000) % 2 ^ 64,
            by simp [Step.state, end_of_body, reveal_start_g], Or.inl (by simp)⟩
        · rw [loop_body_reveal_wrapped s p hexit hedge htv (by omega)]
          exact ⟨true, false, (p.t + 10000) % 2 ^ 64,
            by simp [Step.state, end_of_body, reveal_start_g, timeout_dismiss_g],
            Or.inl (by simp)⟩
      · rw [loop_body_repress s p hexit hedge htv]
        exact ⟨true, false, s.w.g.g_show_deadline_ms,
          by simp [Step.state, end_of_body, repress_dismiss_g], Or.inl (by simp)⟩
  · rw [loop_body_brk s p hexit]
    exact ⟨_, _, _, rfl, Or.inr ⟨rfl, rfl⟩⟩

theorem loop_body_keeps_invariant (s : MainLoop) (p : Sample)
    (h : visible_implies_not_hidden s.w.g) :
    visible_implies_not_hidden (loop_body s p).state.w.g := by
  obtain ⟨dh, tv, d, hg, hor⟩ := loop_body_g s p
  rw [hg]
  rcases hor with hor | ⟨h1, h2⟩
  · exact hor
  · subst h1 h2
    exact h

theorem main_loop_keeps_invariant (samples : List Sample) (s : MainLoop)
    (h : visible_implies_not_hidden s.w.g) :
    visible_implies_not_hidden (main_loop s samples).1.w.g := by
  induction samples generalizing s with
  | nil => exact h
  | cons p ps ih =>
    unfold main_loop
    split
    · have hk := loop_body_keeps_invariant s p h
      split
      · rename_i s1 heq
        rw [heq] at hk
        exact hk
      · rename_i s1 heq
        rw [heq] at hk
        exact ih s1 hk
    · exact h

/-- The globals and the call log `discover` leaves behind. -/
theorem discover_g (os : OS) :
    ∃ X Y, (discover os).g =
      { Globals.static_init with
        g_explorer_taskbars := X
        g_third_party_taskbars := Y
        g_has_taskbar_managers := detect_taskbar_managers os
        g_original_work_area := if os.spiGetOk = true then os.workArea else ⟨0, 0, 0, 0⟩
        g_has_original_work_area := os.spiGetOk } ∧
      (discover os).trace = [Call.SPI_GETWORKAREA] := by
  obtain ⟨X, Y, hXY⟩ := enumerate_taskbars_shape
    (store (fun g => { g with g_has_taskbar_managers := detect_taskbar_managers os })
      (World.at_launch os))
  refine ⟨X, Y, ?_⟩
  unfold discover
  simp only [World.at_launch] at hXY ⊢
  rw [hXY]
  cases h : os.spiGetOk <;>
    simp [save_work_area, World.with_lists, h, Globals.static_init, store, log]

/-- The globals `startup` leaves behind. -/
theorem startup_g (os : OS) :
    ∃ X Y, (startup os).w.g =
      { Globals.static_init with
        g_explorer_taskbars := X
        g_third_party_taskbars := Y
        g_has_taskbar_managers := detect_taskbar_managers os
        g_original_work_area := if os.spiGetOk = true then os.workArea else ⟨0, 0, 0, 0⟩
        g_has_original_work_area := os.spiGetOk } := by
  obtain ⟨X, Y, hg, -⟩ := discover_g os
  refine ⟨X, Y, ?_⟩
  simp [startup, hg, Globals.static_init]

/-- The functions `startup` enters. -/
theorem startup_entered (os : OS) :
    entered (startup os).w.trace = Fn.hide_system_taskbars true ::
      (if safe_gate (startup os).w.g = true then [Fn.set_fullscreen_work_area] else []) := by
  obtain ⟨X, Y, hg, ht⟩ := discover_g os
  have hgate : safe_gate (startup os).w.g = safe_gate (discover os).g := by
    simp [startup, safe_gate]
  rw [hgate]
  simp only [startup, expand_if_safe_entered, hide_system_taskbars_entered,
    set_taskbar_autohide_entered, store_trace, ht, hide_system_taskbars_g,
    set_taskbar_autohide_g, store_g]
  simp [entered, safe_gate]

theorem shutdown_g (w : World) :
    (shutdown w).1.g = { w.g with g_exit_flag := true, g_desired_hidden := false } := by
  simp [shutdown, enforcement_worker]

/-- C1: started from the state `startup` leaves, after every iteration of
the main loop on any finite sequence of poll samples, and after the shutdown
sequence, `g_panel_temp_visible` implies not `g_desired_hidden`. -/
theorem C1_visible_implies_not_hidden (os : OS) (samples : List Sample) :
    visible_implies_not_hidden (main_loop (startup os) samples).1.w.g ∧
    visible_implies_not_hidden (shutdown (main_loop (startup os) samples).1.w).1.g := by
  constructor
  · apply main_loop_keeps_invariant
    obtain ⟨X, Y, h⟩ := startup_g os
    rw [h]
    intro hv
    cases hv
  · rw [shutdown_g]
    intro _
    rfl

/-! ## The functions entered in one iteration -/

theorem entered_end_of_body (w v : World) (p : Sample) (E : List Fn)
    (hpre : w.trace <+: v.trace) (h : entered v.trace = entered w.trace ++ E) :
    entered (new_calls w (end_of_body v p).w) = E := by
  apply entered_new_calls
  · exact Sleep_extends 20 w v hpre
  · simp [end_of_body, entered_append, entered_Sleep_single, h]

theorem tick_entered_brk (s : MainLoop) (p : Sample) (hexit : exit_gesture s p = true) :
    entered (tick_calls s p) = [] := by
  simp [tick_calls, loop_body_brk s p hexit, Step.state, new_calls_self, entered]

theorem tick_entered_idle (s : MainLoop) (p : Sample) (hexit : exit_gesture s p = false)
    (hedge : rising_edge s p = false)
    (hno : ¬ (s.w.g.g_panel_temp_visible = true ∧ s.w.g.g_show_deadline_ms ≤ p.t)) :
    entered (tick_calls s p) = [] := by
  rw [tick_calls, loop_body_idle s p hexit hedge hno]
  exact entered_end_of_body _ _ _ _ (List.prefix_refl _) (by simp)

theorem tick_entered_timeout (s : MainLoop) (p : Sample) (hexit : exit_gesture s p = false)
    (hedge : rising_edge s p = false) (htv : s.w.g.g_panel_temp_visible = true)
    (ht : s.w.g.g_show_deadline_ms ≤ p.t) :
    entered (tick_calls s p) =
      Fn.close_start_menu :: Fn.hide_system_taskbars true ::
        (if safe_gate s.w.g = true then [Fn.set_fullscreen_work_area] else []) := by
  rw [tick_calls, loop_body_timeout s p hexit hedge htv ht]
  exact entered_end_of_body _ _ _ _ (timeout_dismiss_extends _) (timeout_dismiss_entered _)

theorem tick_entered_reveal (s : MainLoop) (p : Sample) (hexit : exit_gesture s p = false)
    (hedge : rising_edge s p = true) (htv : s.w.g.g_panel_temp_visible = false)
    (ht : p.t < (p.t + 10000) % 2 ^ 64) :
    entered (tick_calls s p) =
      Fn.show_system_taskbars ::
        (if s.w.g.g_has_original_work_area = true ∧ safe_gate s.w.g = true
          then [Fn.restore_work_area] else []) := by
  rw [tick_calls, loop_body_reveal s p hexit hedge htv ht]
  exact entered_end_of_body _ _ _ _ (reveal_start_extends _ _) (reveal_start_entered _ _)

theorem tick_entered_reveal_wrapped (s : MainLoop) (p : Sample)
    (hexit : exit_gesture s p = false) (hedge : rising_edge s p = true)
    (htv : s.w.g.g_panel_temp_visible = false) (ht : (p.t + 10000) % 2 ^ 64 ≤ p.t) :
    entered (tick_calls s p) =
      (Fn.show_system_taskbars ::
        (if s.w.g.g_has_original_work_area = true ∧ safe_gate s.w.g = true
          then [Fn.restore_work_area] else [])) ++
      Fn.close_start_menu :: Fn.hide_system_taskbars true ::
        (if safe_gate s.w.g = true then [Fn.set_fullscreen_work_area] else []) := by
  rw [tick_calls, loop_body_reveal_wrapped s p hexit hedge htv ht]
  apply entered_end_of_body
  · exact (reveal_start_extends _ _).trans (timeout_dismiss_extends _)
  · rw [timeout_dismiss_entered, reveal_start_entered, reveal_start_g]
    simp [safe_gate]

theorem shutdown_eq (w : World) :
    shutdown w =
      (set_taskbar_autohide false (restore_work_area (show_system_taskbars
        (store (fun g => { g with g_desired_hidden := false })
          (store (fun g => { g with g_exit_flag := true }) w)))), 0) := by
  simp [shutdown, enforcement_worker]

theorem shutdown_entered (w : World) :
    entered (new_calls w (shutdown w).1) = [Fn.show_system_taskbars, Fn.restore_work_area] := by
  rw [shutdown_eq]
  apply entered_new_calls
  · apply set_taskbar_autohide_extends
    apply restore_work_area_extends
    apply show_system_taskbars_extends
    apply store_extends
    apply store_extends
    exact List.prefix_refl _
  · show entered (set_taskbar_autohide false _).trace = _
    rw [set_taskbar_autohide_entered, restore_work_area_entered, show_system_taskbars_entered]
    simp

theorem shutdown_visible (w : World) (h : HWND) (hmem : h ∈ w.g.g_explorer_taskbars) :
    ((shutdown w).1.os.windows h).visible = true := by
  rw [shutdown_eq]
  simp only [set_taskbar_autohide_windows, restore_work_area_windows]
  exact show_system_taskbars_visible _ h hmem

theorem shutdown_workArea (w : World) :
    (shutdown w).1.os.workArea =
      if w.g.g_has_original_work_area = true ∧ w.os.spiSetOk = true
      then w.g.g_original_work_area else w.os.workArea := by
  rw [shutdown_eq]
  simp only [set_taskbar_autohide_workArea, restore_work_area_workArea,
    show_system_taskbars_g, show_system_taskbars_spiSetOk, show_system_taskbars_workArea,
    store_g, store_os]

theorem shutdown_appbarState (w : World) : (shutdown w).1.os.appbarState = ABS_ALWAYSONTOP := by
  rw [shutdown_eq]
  rfl

/-! ## Facts about every reachable state -/

theorem loop_body_next_latch (s s1 : MainLoop) (p : Sample)
    (h : loop_body s p = Step.next s1) (hl : s.alt_combo_latched = false) :
    s1.alt_combo_latched = false := by
  cases hexit : exit_gesture s p
  · have hk : (p.alt_down && p.backtick_down) = false := by
      simpa [exit_gesture, hl] using hexit
    unfold loop_body at h
    simp only [hk] at h
    simp at h
    rw [← h]
  · rw [loop_body_brk s p hexit] at h
    cases h

/-- In every reachable state the loop is running, the exit combo is not
latched, and the snapshot of the work area is the one `startup` took. -/
theorem reachable_facts (os0 : OS) (s : MainLoop) (h : Reachable os0 s) :
    s.w.g.g_exit_flag = false ∧ s.alt_combo_latched = false ∧
    s.w.g.g_has_original_work_area = os0.spiGetOk ∧
    s.w.g.g_original_work_area = (if os0.spiGetOk = true then os0.workArea else ⟨0, 0, 0, 0⟩) := by
  induction h with
  | start =>
    obtain ⟨X, Y, hg⟩ := startup_g os0
    rw [hg]
    exact ⟨rfl, rfl, rfl, rfl⟩
  | tick s s1 p _ hstep ih =>
    obtain ⟨dh, tv, d, hg, -⟩ := loop_body_g s p
    rw [hstep] at hg
    simp only [Step.state] at hg
    rw [hg]
    exact ⟨ih.1, loop_body_next_latch s s1 p hstep ih.2.1, ih.2.2.1, ih.2.2.2⟩
  | os_change s os1 _ ih => exact ih

theorem loop_body_next_state (s : MainLoop) (p : Sample) (hexit : exit_gesture s p = false) :
    loop_body s p = Step.next (loop_body s p).state := by
  unfold exit_gesture at hexit
  simp [loop_body, hexit, Step.state]

theorem startup_then_tick_reachable (os0 : OS) (p : Sample)
    (hexit : exit_gesture (startup os0) p = false) :
    Reachable os0 (loop_body (startup os0) p).state :=
  Reachable.tick _ _ p Reachable.start (loop_body_next_state _ p hexit)

theorem revealed_state_reachable : Reachable plain_desktop revealed_state :=
  Reachable.tick _ _ (no_key 1200)
    (startup_then_tick_reachable plain_desktop (win_key 1000) (by decide))
    (loop_body_next_state _ _ (by decide))

theorem main_loop_cons (s s1 : MainLoop) (p : Sample) (ps : List Sample)
    (hflag : s.w.g.g_exit_flag = false) (h : loop_body s p = Step.next s1) :
    main_loop s (p :: ps) = main_loop s1 ps := by
  simp [main_loop, hflag, h]

/-- A run of the main loop that is still running ended in a reachable
state. -/
theorem main_loop_running_reachable (os0 : OS) (pre : List Sample) (s0 s : MainLoop)
    (h0 : Reachable os0 s0) (h : main_loop s0 pre = (s, false)) : Reachable os0 s := by
  induction pre generalizing s0 with
  | nil =>
    simp only [main_loop, Prod.mk.injEq, and_true] at h
    rw [← h]
    exact h0
  | cons p ps ih =>
    cases hflag : s0.w.g.g_exit_flag
    · cases hstep : loop_body s0 p with
      | brk s1 => simp [main_loop, hflag, hstep] at h
      | next s1 =>
        rw [main_loop_cons s0 s1 p ps hflag hstep] at h
        exact ih s1 (Reachable.tick s0 s1 p h0 hstep) h
    · simp [main_loop, hflag] at h

/-- A run that is still running after its first part continues from the
state that part ended in. -/
theorem main_loop_append (pre l : List Sample) (s0 s : MainLoop)
    (h : main_loop s0 pre = (s, false)) : main_loop s0 (pre ++ l) = main_loop s l := by
  induction pre generalizing s0 with
  | nil =>
    simp only [main_loop, Prod.mk.injEq, and_true] at h
    rw [← h]
    rfl
  | cons p ps ih =>
    cases hflag : s0.w.g.g_exit_flag
    · cases hstep : loop_body s0 p with
      | brk s1 => simp [main_loop, hflag, hstep] at h
      | next s1 =>
        rw [main_loop_cons s0 s1 p ps hflag hstep] at h
        rw [List.cons_append, main_loop_cons s0 s1 p _ hflag hstep]
        exact ih s1 h
    · simp [main_loop, hflag] at h

/-- C3, as the code has it: from every state reachable from startup (in all
of which the exit combo is not latched), an iteration that samples Alt and
backtick both down leaves the main loop at the `break`, in the state it was
entered in and without any transition; the shutdown sequence then returns
exit code 0 with `g_exit_flag` set (so the enforcement loop does nothing
more), `g_desired_hidden` clear and every Explorer taskbar marked visible.
The work area is the rectangle `save_work_area` captured at startup when that
capture succeeded and the system accepts the `SPI_SETWORKAREA` call of
`restore_work_area`; otherwise shutdown leaves the work area as it found it.
The appbar state is set to `ABS_ALWAYSONTOP`, which is the pre-launch state
exactly when that was `ABS_ALWAYSONTOP`.  When the state is the one a run of
the main loop from startup is in, `wWinMain` on that run followed by the exit
sample returns the world of that shutdown sequence. -/
theorem C3_exit_restores (os0 : OS) (s : MainLoop) (p : Sample) (rest : List Sample)
    (hreach : Reachable os0 s) (halt : p.alt_down = true) (hbt : p.backtick_down = true) :
    loop_body s p = Step.brk s ∧
    transitions (tick_calls s p) = [] ∧
    main_loop s (p :: rest) = (s, true) ∧
    (shutdown s.w).2 = 0 ∧
    (shutdown s.w).1.g.g_exit_flag = true ∧
    (∀ fuel, enforcement_worker fuel (shutdown s.w).1 = (shutdown s.w).1) ∧
    (shutdown s.w).1.g.g_desired_hidden = false ∧
    (∀ h ∈ s.w.g.g_explorer_taskbars, ((shutdown s.w).1.os.windows h).visible = true) ∧
    (shutdown s.w).1.os.workArea =
      (if os0.spiGetOk = true ∧ s.w.os.spiSetOk = true then os0.workArea else s.w.os.workArea) ∧
    (shutdown s.w).1.os.appbarState = ABS_ALWAYSONTOP ∧
    ((shutdown s.w).1.os.appbarState = os0.appbarState ↔ os0.appbarState = ABS_ALWAYSONTOP) ∧
    (∀ pre : List Sample, main_loop (startup os0) pre = (s, false) →
      wWinMain os0 (pre ++ p :: rest) = some (shutdown s.w)) := by
  obtain ⟨hflag, hlatch, hhas, horig⟩ := reachable_facts os0 s hreach
  have hexit : exit_gesture s p = true := by simp [exit_gesture, halt, hbt, hlatch]
  have hbrk := loop_body_brk s p hexit
  have hgflag : (shutdown s.w).1.g.g_exit_flag = true := by rw [shutdown_g]
  have hleft : main_loop s (p :: rest) = (s, true) := by simp [main_loop, hflag, hbrk]
  refine ⟨hbrk, ?_, hleft, rfl, hgflag, ?_, ?_, ?_, ?_, shutdown_appbarState _, ?_, ?_⟩
  rotate_left 5
  · rw [shutdown_appbarState]
    exact eq_comm
  · intro pre hpre
    simp [wWinMain, main_loop_append pre (p :: rest) _ s hpre, hleft]
  · rw [transitions, tick_entered_brk s p hexit]
    rfl
  · intro fuel
    exact enforcement_worker_stopped fuel _ hgflag
  · rw [shutdown_g]
  · intro h hmem
    exact shutdown_visible s.w h hmem
  · rw [shutdown_workArea, hhas, horig]
    by_cases h1 : os0.spiGetOk = true <;> by_cases h2 : s.w.os.spiSetOk = true <;>
      simp [h1, h2]

/-- C3 at concrete inputs: on the plain desktop, the exit keys pressed while
the panel is hidden and while it is revealed both end with the taskbar
visible, the work area back at the pre-launch rectangle, the appbar state
back at its pre-launch value, and exit code 0. -/
theorem C3_exit_restores_witness :
    ((shutdown (startup plain_desktop).w).1.os.workArea = ⟨0, 0, 1920, 1040⟩ ∧
      (shutdown (startup plain_desktop).w).2 = 0) ∧
    ((shutdown revealed_state.w).1.os.workArea = ⟨0, 0, 1920, 1040⟩ ∧
      ((shutdown revealed_state.w).1.os.windows 1).visible = true ∧
      (shutdown revealed_state.w).1.os.appbarState = plain_desktop.appbarState ∧
      (shutdown revealed_state.w).2 = 0 ∧
      wWinMain plain_desktop [win_key 1000, no_key 1200, exit_keys 3000]
        = some (shutdown revealed_state.w)) :=
  have h1 := C3_exit_restores plain_desktop (startup plain_desktop) (exit_keys 500) []
    Reachable.start rfl rfl
  have h2 := C3_exit_restores plain_desktop revealed_state (exit_keys 3000) []
    revealed_state_reachable rfl rfl
  ⟨⟨h1.2.2.2.2.2.2.2.2.1.trans (by decide), h1.2.2.2.1⟩,
   ⟨h2.2.2.2.2.2.2.2.2.1.trans (by decide), h2.2.2.2.2.2.2.2.1 1 (by decide),
    h2.2.2.2.2.2.2.2.2.2.2.1.mpr rfl, h2.2.2.2.1,
    h2.2.2.2.2.2.2.2.2.2.2.2 [win_key 1000, no_key 1200] rfl⟩⟩

/-- C3 fails in three ways.  When the query of the work area fails at
startup, no snapshot exists, `restore_work_area` does nothing, and after the
exit gesture and the shutdown sequence the work area is still the expanded
rectangle, which is neither the pre-launch rectangle nor the content of
`g_original_work_area`.  When the system refuses `SPI_SETWORKAREA` during
shutdown, the snapshot exists but the work area stays expanded.  When the
taskbar was set to auto-hide before launch, the shutdown sequence leaves the
appbar state at `ABS_ALWAYSONTOP`, which is not the pre-launch state. -/
theorem C3_restoration_is_partial :
    (exit_gesture (startup desktop_query_fails) (exit_keys 500) = true ∧
      (shutdown (startup desktop_query_fails).w).1.os.workArea = ⟨0, 0, 1920, 1080⟩ ∧
      (shutdown (startup desktop_query_fails).w).1.os.workArea ≠ desktop_query_fails.workArea ∧
      (shutdown (startup desktop_query_fails).w).1.os.workArea
        ≠ (startup desktop_query_fails).w.g.g_original_work_area) ∧
    (Reachable plain_desktop startup_then_set_refused ∧
      exit_gesture startup_then_set_refused (exit_keys 500) = true ∧
      startup_then_set_refused.w.g.g_has_original_work_area = true ∧
      startup_then_set_refused.w.g.g_original_work_area = plain_desktop.workArea ∧
      (shutdown startup_then_set_refused.w).1.os.workArea = ⟨0, 0, 1920, 1080⟩ ∧
      (shutdown startup_then_set_refused.w).1.os.workArea
        ≠ startup_then_set_refused.w.g.g_original_work_area) ∧
    (desktop_autohide.appbarState = ABS_AUTOHIDE ∧
      exit_gesture (startup desktop_autohide) (exit_keys 500) = true ∧
      (shutdown (startup desktop_autohide).w).1.os.appbarState = ABS_ALWAYSONTOP ∧
      (shutdown (startup desktop_autohide).w).1.os.appbarState
        ≠ desktop_autohide.appbarState) :=
  ⟨by decide,
   ⟨Reachable.os_change (startup plain_desktop) _ Reachable.start, by decide, by decide,
    by decide, by decide, by decide⟩,
   by decide⟩

/-- C4, as the code has it: at startup, at the dismissal on a second press
and at the dismissal by timeout a work-area call is made exactly when the
safety gate is open, and it is never `restore_work_area`; at the
reveal-start a work-area call is made exactly when the gate is open and a
snapshot exists, and it is never `set_fullscreen_work_area`; the shutdown
sequence calls `restore_work_area`, and not `set_fullscreen_work_area`,
whatever the gate says. -/
theorem C4_work_area_gate :
    (∀ os : OS,
      (work_area_invoked (startup os).w.trace ↔ safe_gate (startup os).w.g = true) ∧
      Fn.restore_work_area ∉ entered (startup os).w.trace) ∧
    (∀ (t : Nat) (w : World),
      (work_area_invoked (new_calls w (reveal_start t w)) ↔
        (w.g.g_has_original_work_area = true ∧ safe_gate w.g = true)) ∧
      Fn.set_fullscreen_work_area ∉ entered (new_calls w (reveal_start t w))) ∧
    (∀ w : World,
      (work_area_invoked (new_calls w (repress_dismiss w)) ↔ safe_gate w.g = true) ∧
      Fn.restore_work_area ∉ entered (new_calls w (repress_dismiss w))) ∧
    (∀ w : World,
      (work_area_invoked (new_calls w (timeout_dismiss w)) ↔ safe_gate w.g = true) ∧
      Fn.restore_work_area ∉ entered (new_calls w (timeout_dismiss w))) ∧
    (∀ w : World,
      Fn.restore_work_area ∈ entered (new_calls w (shutdown w).1) ∧
      Fn.set_fullscreen_work_area ∉ entered (new_calls w (shutdown w).1)) := by
  refine ⟨?_, ?_, ?_, ?_, ?_⟩
  · intro os
    unfold work_area_invoked
    rw [startup_entered os]
    split <;> simp_all
  · intro t w
    unfold work_area_invoked
    rw [entered_new_calls w _ _ (reveal_start_extends t w) (reveal_start_entered t w)]
    split <;> simp_all
  · intro w
    unfold work_area_invoked
    rw [entered_new_calls w _ _ (repress_dismiss_extends w) (repress_dismiss_entered w)]
    split <;> simp_all
  · intro w
    unfold work_area_invoked
    rw [entered_new_calls w _ _ (timeout_dismiss_extends w) (timeout_dismiss_entered w)]
    split <;> simp_all
  · intro w
    rw [shutdown_entered]
    simp

/-- C4 fails at two places.  With a third-party manager running the gate is
closed, yet the shutdown sequence invokes `restore_work_area`; and with the
gate open but no snapshot, the reveal-start invokes neither work-area
function. -/
theorem C4_gate_is_not_the_whole_condition :
    (safe_gate (startup desktop_with_manager).w.g = false ∧
      work_area_invoked (new_calls (startup desktop_with_manager).w
        (shutdown (startup desktop_with_manager).w).1)) ∧
    (safe_gate (startup desktop_query_fails).w.g = true ∧
      ¬ work_area_invoked (new_calls (startup desktop_query_fails).w
        (reveal_start 1000 (startup desktop_query_fails).w))) := by
  decide

/-- C8, as the code has it: `save_work_area` has no guard.  Whenever the
query succeeds it overwrites the snapshot with the current work area, also
when a snapshot exists; when the query fails it changes nothing.  The
snapshot is still taken once per run, because only `startup` calls
`save_work_area`: in every state reachable from startup the snapshot flag and
rectangle are those of startup (the pre-launch work area when the query
succeeded), and the shutdown sequence keeps them. -/
theorem C8_snapshot_taken_at_startup_only (os0 : OS) (s : MainLoop) (hreach : Reachable os0 s)
    (w : World) :
    (save_work_area w).g.g_original_work_area =
      (if w.os.spiGetOk = true then w.os.workArea else w.g.g_original_work_area) ∧
    (save_work_area w).g.g_has_original_work_area =
      (w.os.spiGetOk || w.g.g_has_original_work_area) ∧
    s.w.g.g_has_original_work_area = os0.spiGetOk ∧
    s.w.g.g_original_work_area = (if os0.spiGetOk = true then os0.workArea else ⟨0, 0, 0, 0⟩) ∧
    (shutdown s.w).1.g.g_has_original_work_area = s.w.g.g_has_original_work_area ∧
    (shutdown s.w).1.g.g_original_work_area = s.w.g.g_original_work_area := by
  obtain ⟨-, -, hhas, horig⟩ := reachable_facts os0 s hreach
  refine ⟨?_, ?_, hhas, horig, ?_, ?_⟩
  · cases h : w.os.spiGetOk <;> simp [save_work_area, h]
  · cases h : w.os.spiGetOk <;> simp [save_work_area, h]
  · rw [shutdown_g]
  · rw [shutdown_g]

/-- C8 at concrete inputs: on the plain desktop, with the panel revealed,
the snapshot is the pre-launch work area. -/
theorem C8_snapshot_taken_at_startup_only_witness :
    revealed_state.w.g.g_has_original_work_area = true ∧
    revealed_state.w.g.g_original_work_area = ⟨0, 0, 1920, 1040⟩ :=
  have h := C8_snapshot_taken_at_startup_only plain_desktop revealed_state
    revealed_state_reachable revealed_state.w
  ⟨h.2.2.1, h.2.2.2.1⟩

/-- C8 fails on the state after startup on the plain desktop: a snapshot
exists, the work area has been expanded, and a second call of
`save_work_area` replaces the snapshot by the expanded rectangle. -/
theorem C8_second_save_overwrites :
    (startup plain_desktop).w.g.g_has_original_work_area = true ∧
    (startup plain_desktop).w.g.g_original_work_area = ⟨0, 0, 1920, 1040⟩ ∧
    (save_work_area (startup plain_desktop).w).g.g_original_work_area = ⟨0, 0, 1920, 1080⟩ ∧
    (save_work_area (startup plain_desktop).w).g.g_original_work_area
      ≠ (startup plain_desktop).w.g.g_original_work_area := by
  decide

/-! ## Runs of the main loop -/

theorem ticks_transitions_cons (s s1 : MainLoop) (p : Sample) (ps : List Sample)
    (hflag : s.w.g.g_exit_flag = false) (h : loop_body s p = Step.next s1) :
    ticks_transitions s (p :: ps) = transitions (tick_calls s p) :: ticks_transitions s1 ps := by
  simp [ticks_transitions, hflag, h]

theorem end_of_body_g (w : World) (p : Sample) : (end_of_body w p).w.g = w.g := rfl

theorem end_of_body_win_was_down (w : World) (p : Sample) :
    (end_of_body w p).win_was_down = win_down p := rfl

theorem tick_transitions_idle (s : MainLoop) (p : Sample) (hexit : exit_gesture s p = false)
    (hedge : rising_edge s p = false)
    (hno : ¬ (s.w.g.g_panel_temp_visible = true ∧ s.w.g.g_show_deadline_ms ≤ p.t)) :
    transitions (tick_calls s p) = [] := by
  rw [transitions, tick_entered_idle s p hexit hedge hno]
  rfl

theorem tick_transitions_timeout (s : MainLoop) (p : Sample) (hexit : exit_gesture s p = false)
    (hedge : rising_edge s p = false) (htv : s.w.g.g_panel_temp_visible = true)
    (ht : s.w.g.g_show_deadline_ms ≤ p.t) :
    transitions (tick_calls s p) = [Transition.timeout_dismiss] := by
  rw [transitions, tick_entered_timeout s p hexit hedge htv ht]
  split <;> rfl

theorem tick_transitions_reveal (s : MainLoop) (p : Sample) (hexit : exit_gesture s p = false)
    (hedge : rising_edge s p = true) (htv : s.w.g.g_panel_temp_visible = false)
    (ht : p.t < (p.t + 10000) % 2 ^ 64) :
    transitions (tick_calls s p) = [Transition.reveal_start] := by
  rw [transitions, tick_entered_reveal s p hexit hedge htv ht]
  split <;> rfl

theorem tick_transitions_reveal_wrapped (s : MainLoop) (p : Sample)
    (hexit : exit_gesture s p = false) (hedge : rising_edge s p = true)
    (htv : s.w.g.g_panel_temp_visible = false) (ht : (p.t + 10000) % 2 ^ 64 ≤ p.t) :
    transitions (tick_calls s p) = [Transition.reveal_start, Transition.timeout_dismiss] := by
  rw [transitions, tick_entered_reveal_wrapped s p hexit hedge htv ht]
  split <;> split <;> rfl

/-- The hypotheses a quiet run gives about its first iteration. -/
theorem quiet_cons (s : MainLoop) (p : Sample) (ps : List Sample)
    (h : quiet s (p :: ps) = true) :
    rising_edge s p = false ∧ exit_gesture s p = false ∧ quiet (loop_body s p).state ps = true := by
  simpa [quiet, and_assoc] using h

/-- A quiet run with the panel not revealed performs no transition. -/
theorem quiet_hidden_run (later : List Sample) (s : MainLoop)
    (hflag : s.w.g.g_exit_flag = false) (htv : s.w.g.g_panel_temp_visible = false)
    (hq : quiet s later = true) :
    ticks_transitions s later = List.replicate later.length [] := by
  induction later generalizing s with
  | nil => rfl
  | cons p ps ih =>
    obtain ⟨hedge, hexit, hrest⟩ := quiet_cons s p ps hq
    have hno : ¬ (s.w.g.g_panel_temp_visible = true ∧ s.w.g.g_show_deadline_ms ≤ p.t) := by
      simp [htv]
    have hstep := loop_body_idle s p hexit hedge hno
    rw [ticks_transitions_cons s _ p ps hflag hstep, tick_transitions_idle s p hexit hedge hno]
    rw [hstep] at hrest
    rw [ih (end_of_body s.w p) hflag htv hrest]
    rfl

/-- A quiet run whose sampled times all lie before the deadline performs no
transition, does not leave the loop, and keeps the globals. -/
theorem quiet_before_deadline (later : List Sample) (s : MainLoop)
    (hflag : s.w.g.g_exit_flag = false) (hq : quiet s later = true)
    (hbefore : ∀ q ∈ later, q.t < s.w.g.g_show_deadline_ms) :
    ticks_transitions s later = List.replicate later.length [] ∧
    (main_loop s later).1.w.g = s.w.g ∧ (main_loop s later).2 = false := by
  induction later generalizing s with
  | nil => exact ⟨rfl, rfl, rfl⟩
  | cons p ps ih =>
    obtain ⟨hedge, hexit, hrest⟩ := quiet_cons s p ps hq
    have hp := hbefore p (List.mem_cons_self _ _)
    have hno : ¬ (s.w.g.g_panel_temp_visible = true ∧ s.w.g.g_show_deadline_ms ≤ p.t) := by
      omega
    have hstep := loop_body_idle s p hexit hedge hno
    rw [ticks_transitions_cons s _ p ps hflag hstep, tick_transitions_idle s p hexit hedge hno,
      main_loop_cons s _ p ps hflag hstep]
    rw [hstep] at hrest
    obtain ⟨h1, h2, h3⟩ := ih (end_of_body s.w p) hflag hrest
      (fun q hq => hbefore q (List.mem_cons_of_mem _ hq))
    exact ⟨by rw [h1]; rfl, h2, h3⟩

/-- In a quiet run with the panel revealed, the dismissal by timeout happens
in the first iteration whose sampled time has reached the deadline, and no
other iteration performs a transition. -/
theorem quiet_timeout_once (pre : List Sample) (x : Sample) (post : List Sample) (s : MainLoop)
    (hflag : s.w.g.g_exit_flag = false) (htv : s.w.g.g_panel_temp_visible = true)
    (hq : quiet s (pre ++ x :: post) = true)
    (hbefore : ∀ q ∈ pre, q.t < s.w.g.g_show_deadline_ms)
    (hx : s.w.g.g_show_deadline_ms ≤ x.t) :
    ticks_transitions s (pre ++ x :: post) =
      List.replicate pre.length [] ++ [Transition.timeout_dismiss] ::
        List.replicate post.length [] := by
  induction pre generalizing s with
  | nil =>
    obtain ⟨hedge, hexit, hrest⟩ := quiet_cons s x post hq
    have hstep := loop_body_timeout s x hexit hedge htv hx
    rw [List.nil_append, ticks_transitions_cons s _ x post hflag hstep,
      tick_transitions_timeout s x hexit hedge htv hx]
    rw [hstep] at hrest
    have hg : (end_of_body (timeout_dismiss s.w) x).w.g.g_panel_temp_visible = false := by
      rw [end_of_body_g, timeout_dismiss_g]
    have hf : (end_of_body (timeout_dismiss s.w) x).w.g.g_exit_flag = false := by
      rw [end_of_body_g, timeout_dismiss_g]
      exact hflag
    rw [quiet_hidden_run post _ hf hg hrest]
    rfl
  | cons p ps ih =>
    obtain ⟨hedge, hexit, hrest⟩ := quiet_cons s p (ps ++ x :: post) hq
    have hp := hbefore p (List.mem_cons_self _ _)
    have hno : ¬ (s.w.g.g_panel_temp_visible = true ∧ s.w.g.g_show_deadline_ms ≤ p.t) := by
      omega
    have hstep := loop_body_idle s p hexit hedge hno
    rw [List.cons_append, ticks_transitions_cons s _ p _ hflag hstep,
      tick_transitions_idle s p hexit hedge hno]
    rw [hstep] at hrest
    rw [ih (end_of_body s.w p) hflag htv hrest
      (fun q hq => hbefore q (List.mem_cons_of_mem _ hq)) hx]
    rfl

theorem loop_body_state_win_was_down (s : MainLoop) (p : Sample)
    (hexit : exit_gesture s p = false) :
    (loop_body s p).state.win_was_down = win_down p := by
  unfold exit_gesture at hexit
  simp [loop_body, hexit, Step.state, win_down]

theorem loop_body_state_exit_flag (s : MainLoop) (p : Sample) :
    (loop_body s p).state.w.g.g_exit_flag = s.w.g.g_exit_flag := by
  obtain ⟨dh, tv, d, hg, -⟩ := loop_body_g s p
  rw [hg]

/-- A run that keeps the reveal key down, entered with the key already
recorded as down, is quiet. -/
theorem held_is_quiet (rest : List Sample) (s : MainLoop) (hdown : s.win_was_down = true)
    (hheld : held s rest = true) : quiet s rest = true := by
  induction rest generalizing s with
  | nil => rfl
  | cons p ps ih =>
    have h3 : win_down p = true ∧ exit_gesture s p = false ∧
        held (loop_body s p).state ps = true := by
      simpa [held, and_assoc] using hheld
    obtain ⟨hw, hexit, hrest⟩ := h3
    have hq := ih (loop_body s p).state
      (by rw [loop_body_state_win_was_down s p hexit]; exact hw) hrest
    simp [quiet, rising_edge, hdown, hexit, hq]

/-- In a quiet run every iteration runs to the end of the body and performs
either no transition or the dismissal by timeout. -/
theorem quiet_run_transitions (later : List Sample) (s : MainLoop)
    (hflag : s.w.g.g_exit_flag = false) (hq : quiet s later = true) :
    (ticks_transitions s later).length = later.length ∧
    ∀ ts ∈ ticks_transitions s later, ts = [] ∨ ts = [Transition.timeout_dismiss] := by
  induction later generalizing s with
  | nil => exact ⟨rfl, by simp [ticks_transitions]⟩
  | cons p ps ih =>
    obtain ⟨hedge, hexit, hrest⟩ := quiet_cons s p ps hq
    have hstep := loop_body_next_state s p hexit
    have hf : (loop_body s p).state.w.g.g_exit_flag = false := by
      rw [loop_body_state_exit_flag]
      exact hflag
    obtain ⟨h1, h2⟩ := ih (loop_body s p).state hf hrest
    rw [ticks_transitions_cons s _ p ps hflag hstep]
    refine ⟨by simp [h1], ?_⟩
    intro ts hts
    rcases List.mem_cons.mp hts with rfl | hts
    · by_cases hto : s.w.g.g_panel_temp_visible = true ∧ s.w.g.g_show_deadline_ms ≤ p.t
      · exact Or.inr (tick_transitions_timeout s p hexit hedge hto.1 hto.2)
      · exact Or.inl (tick_transitions_idle s p hexit hedge hto)
    · exact h2 ts hts

/-- C5, as the code has it: when a reveal-start happens at tick time `T`
with `T + 10000 < 2^64`, the deadline after that iteration is `T + 10000`
exactly and no dismissal by timeout happens in that iteration; in every later
run of iterations without rising edge of the reveal key and without exit
gesture, no transition happens while the sampled times stay below the
deadline, and the dismissal by timeout happens in the first iteration whose
sampled time has reached the deadline and in no other iteration. -/
theorem C5_deadline_arithmetic (s : MainLoop) (p : Sample)
    (hT : p.t + 10000 < 2 ^ 64) (hflag : s.w.g.g_exit_flag = false)
    (htv : s.w.g.g_panel_temp_visible = false) (hedge : rising_edge s p = true)
    (hexit : exit_gesture s p = false) :
    loop_body s p = Step.next (loop_body s p).state ∧
    transitions (tick_calls s p) = [Transition.reveal_start] ∧
    (loop_body s p).state.w.g.g_show_deadline_ms = p.t + 10000 ∧
    (loop_body s p).state.w.g.g_panel_temp_visible = true ∧
    (∀ later : List Sample, quiet (loop_body s p).state later = true →
      (∀ q ∈ later, q.t < p.t + 10000) →
      ticks_transitions (loop_body s p).state later = List.replicate later.length [] ∧
      (main_loop (loop_body s p).state later).1.w.g.g_panel_temp_visible = true) ∧
    (∀ (pre : List Sample) (x : Sample) (post : List Sample),
      quiet (loop_body s p).state (pre ++ x :: post) = true →
      (∀ q ∈ pre, q.t < p.t + 10000) → p.t + 10000 ≤ x.t →
      ticks_transitions (loop_body s p).state (pre ++ x :: post) =
        List.replicate pre.length [] ++ [Transition.timeout_dismiss] ::
          List.replicate post.length []) := by
  have hmod : (p.t + 10000) % 2 ^ 64 = p.t + 10000 := Nat.mod_eq_of_lt hT
  have hlt : p.t < (p.t + 10000) % 2 ^ 64 := by rw [hmod]; omega
  have hstep := loop_body_reveal s p hexit hedge htv hlt
  have hD : (loop_body s p).state.w.g.g_show_deadline_ms = p.t + 10000 := by
    rw [hstep, Step.state, end_of_body_g, reveal_start_g]
    exact hmod
  have hV : (loop_body s p).state.w.g.g_panel_temp_visible = true := by
    rw [hstep, Step.state, end_of_body_g, reveal_start_g]
  have hF : (loop_body s p).state.w.g.g_exit_flag = false := by
    rw [loop_body_state_exit_flag]
    exact hflag
  refine ⟨loop_body_next_state s p hexit, tick_transitions_reveal s p hexit hedge htv hlt,
    hD, hV, ?_, ?_⟩
  · intro later hq hbefore
    obtain ⟨h1, h2, -⟩ := quiet_before_deadline later _ hF hq (by rw [hD]; exact hbefore)
    exact ⟨h1, by rw [h2]; exact hV⟩
  · intro pre x post hq hbefore hx
    exact quiet_timeout_once pre x post _ hF hV hq (by rw [hD]; exact hbefore)
      (by rw [hD]; exact hx)

/-- C5 at concrete inputs: on the plain desktop a press of the Win key at
time 1000 sets the deadline to 11000, and in the idle samples that follow the
dismissal by timeout happens at time 11000, not at 1200 or 10999 and not
again at 11020. -/
theorem C5_deadline_arithmetic_witness :
    (loop_body (startup plain_desktop) (win_key 1000)).state.w.g.g_show_deadline_ms = 11000 ∧
    ticks_transitions (loop_body (startup plain_desktop) (win_key 1000)).state
        [no_key 1200, no_key 10999, no_key 11000, no_key 11020]
      = [[], [], [Transition.timeout_dismiss], []] :=
  have h := C5_deadline_arithmetic (startup plain_desktop) (win_key 1000)
    (by decide) (by decide) (by decide) (by decide) (by decide)
  ⟨h.2.2.1, h.2.2.2.2.2 [no_key 1200, no_key 10999] (no_key 11000) [no_key 11020]
    (by decide) (by decide) (by decide)⟩

/-- C5 fails at the tick time `2^64 - 1`: the 64-bit sum wraps, the deadline
becomes 9999 instead of `T + 10000`, and the dismissal by timeout happens in
the reveal-start iteration itself. -/
theorem C5_deadline_wraps :
    (18446744073709551615 : Nat) < 2 ^ 64 ∧
    (loop_body (startup plain_desktop) (win_key 18446744073709551615)).state.w.g.g_show_deadline_ms
      = 9999 ∧
    (loop_body (startup plain_desktop) (win_key 18446744073709551615)).state.w.g.g_show_deadline_ms
      ≠ 18446744073709551615 + 10000 ∧
    transitions (tick_calls (startup plain_desktop) (win_key 18446744073709551615))
      = [Transition.reveal_start, Transition.timeout_dismiss] ∧
    (loop_body (startup plain_desktop)
      (win_key 18446744073709551615)).state.w.g.g_panel_temp_visible = false := by
  decide

/-- C9, as the code has it: from a state with the panel not revealed, in a
run of samples that all have the reveal key down and no exit gesture, the
first being a rising edge, the first iteration performs the reveal-start and
no following iteration performs a second reveal-start or a dismissal on a
second press: every following iteration runs to the end of the body with no
transition other than, possibly, the dismissal by timeout.  When the sampled
times of the run all lie below the deadline armed by the reveal-start, the
run performs exactly one transition, the reveal-start of its first iteration,
and the panel stays revealed with that deadline. -/
theorem C9_debounce (s : MainLoop) (p : Sample) (rest : List Sample)
    (hflag : s.w.g.g_exit_flag = false) (htv : s.w.g.g_panel_temp_visible = false)
    (hedge : rising_edge s p = true) (hheld : held s (p :: rest) = true) :
    loop_body s p = Step.next (loop_body s p).state ∧
    (transitions (tick_calls s p) = [Transition.reveal_start] ∨
      transitions (tick_calls s p) = [Transition.reveal_start, Transition.timeout_dismiss]) ∧
    (ticks_transitions (loop_body s p).state rest).length = rest.length ∧
    (∀ ts ∈ ticks_transitions (loop_body s p).state rest,
      ts = [] ∨ ts = [Transition.timeout_dismiss]) ∧
    ((∀ q ∈ p :: rest, q.t < (p.t + 10000) % 2 ^ 64) →
      ticks_transitions s (p :: rest) =
        [Transition.reveal_start] :: List.replicate rest.length [] ∧
      (main_loop s (p :: rest)).2 = false ∧
      (main_loop s (p :: rest)).1.w.g.g_panel_temp_visible = true ∧
      (main_loop s (p :: rest)).1.w.g.g_show_deadline_ms = (p.t + 10000) % 2 ^ 64) := by
  have h3 : win_down p = true ∧ exit_gesture s p = false ∧
      held (loop_body s p).state rest = true := by
    simpa [held, and_assoc] using hheld
  obtain ⟨hw, hexit, hrest⟩ := h3
  have hnext := loop_body_next_state s p hexit
  have hdown : (loop_body s p).state.win_was_down = true := by
    rw [loop_body_state_win_was_down s p hexit]
    exact hw
  have hq := held_is_quiet rest _ hdown hrest
  have hF : (loop_body s p).state.w.g.g_exit_flag = false := by
    rw [loop_body_state_exit_flag]
    exact hflag
  obtain ⟨hlen, hall⟩ := quiet_run_transitions rest _ hF hq
  refine ⟨hnext, ?_, hlen, hall, ?_⟩
  · by_cases hlt : p.t < (p.t + 10000) % 2 ^ 64
    · exact Or.inl (tick_transitions_reveal s p hexit hedge htv hlt)
    · exact Or.inr (tick_transitions_reveal_wrapped s p hexit hedge htv (by omega))
  · intro hbefore
    have hlt := hbefore p (List.mem_cons_self _ _)
    have hstep := loop_body_reveal s p hexit hedge htv hlt
    have hG : (loop_body s p).state.w.g =
        { s.w.g with g_panel_temp_visible := true, g_desired_hidden := false,
                     g_show_deadline_ms := (p.t + 10000) % 2 ^ 64 } := by
      rw [hstep, Step.state, end_of_body_g, reveal_start_g]
    obtain ⟨h1, h2, h3⟩ := quiet_before_deadline rest _ hF hq
      (by rw [hG]; exact fun q hq => hbefore q (List.mem_cons_of_mem _ hq))
    rw [ticks_transitions_cons s _ p rest hflag hnext, main_loop_cons s _ p rest hflag hnext,
      tick_transitions_reveal s p hexit hedge htv hlt, h1, h2, hG]
    exact ⟨rfl, h3, rfl, rfl⟩

/-- C9 at concrete inputs: on the plain desktop, the Win key pressed at time
1000 and still held at times 1140, 1160 and 1180 gives one reveal-start and
nothing else, and the panel stays revealed. -/
theorem C9_debounce_witness :
    ticks_transitions (startup plain_desktop)
        [win_key 1000, win_key 1140, win_key 1160, win_key 1180]
      = [[Transition.reveal_start], [], [], []] ∧
    (main_loop (startup plain_desktop)
      [win_key 1000, win_key 1140, win_key 1160, win_key 1180]).1.w.g.g_panel_temp_visible
      = true :=
  have h := (C9_debounce (startup plain_desktop) (win_key 1000)
    [win_key 1140, win_key 1160, win_key 1180]
    (by decide) (by decide) (by decide) (by decide)).2.2.2.2 (by decide)
  ⟨h.1, h.2.2.1⟩

/-- C9 fails when the held key outlasts the deadline: on the plain desktop,
the Win key pressed at time 1000 and still sampled down at time 11000 gives
two transitions, the reveal-start and the dismissal by timeout, and the panel
is not revealed at the end.  It also fails when the 64-bit sum wraps: a
press at time `2^64 - 1` gives both transitions in the first iteration. -/
theorem C9_held_past_deadline :
    ((startup plain_desktop).w.g.g_panel_temp_visible = false ∧
      rising_edge (startup plain_desktop) (win_key 1000) = true ∧
      held (startup plain_desktop) [win_key 1000, win_key 11000] = true ∧
      ticks_transitions (startup plain_desktop) [win_key 1000, win_key 11000]
        = [[Transition.reveal_start], [Transition.timeout_dismiss]] ∧
      (main_loop (startup plain_desktop)
        [win_key 1000, win_key 11000]).1.w.g.g_panel_temp_visible = false) ∧
    (rising_edge (startup plain_desktop) (win_key 18446744073709551615) = true ∧
      held (startup plain_desktop) [win_key 18446744073709551615] = true ∧
      ticks_transitions (startup plain_desktop) [win_key 18446744073709551615]
        = [[Transition.reveal_start, Transition.timeout_dismiss]] ∧
      (main_loop (startup plain_desktop)
        [win_key 18446744073709551615]).1.w.g.g_panel_temp_visible = false) := by
  decide

end TaskbarHider
